import Mathlib

/-!
Verification of the action dispatch and safety-gating layer of
`agent_brain.py` (agent-hub). The Python functions are shallowly embedded:
JSON-like Python values become `JVal`, Python dicts become association
lists with first-occurrence lookup and in-place update (mirroring CPython
dict semantics for unique keys), network and filesystem effects become
explicit oracle parameters, and raised exceptions become `Except`/`Option`
results. Each definition is translated from the source file; line numbers
from `src/agent_brain.py` are cited next to each embedding.
-/

namespace AgentHub

/-- A Python/JSON value as `agent_brain.py` manipulates them: `None`, `bool`,
`int`, `str`, `list`, `dict`. Python `bool` is kept separate from `int`
(CPython subclassing is recovered by `isPyInt` below). -/
inductive JVal where
  | jnull
  | jbool (b : Bool)
  | jint (n : Int)
  | jstr (s : String)
  | jlist (xs : List JVal)
  | jdict (kvs : List (String × JVal))

mutual
/-- Decidable equality of values; written by hand because the deriving
handler does not treat the nested `List` positions. -/
def decEqJVal : (a b : JVal) → Decidable (a = b)
  | .jnull, .jnull => isTrue rfl
  | .jbool a, .jbool b =>
    if h : a = b then isTrue (by rw [h]) else isFalse (by simp [h])
  | .jint a, .jint b =>
    if h : a = b then isTrue (by rw [h]) else isFalse (by simp [h])
  | .jstr a, .jstr b =>
    if h : a = b then isTrue (by rw [h]) else isFalse (by simp [h])
  | .jlist xs, .jlist ys =>
    match decEqJList xs ys with
    | isTrue h => isTrue (by rw [h])
    | isFalse h => isFalse (by simp [h])
  | .jdict xs, .jdict ys =>
    match decEqJFields xs ys with
    | isTrue h => isTrue (by rw [h])
    | isFalse h => isFalse (by simp [h])
  | .jnull, .jbool _ => isFalse (fun h => JVal.noConfusion h)
  | .jnull, .jint _ => isFalse (fun h => JVal.noConfusion h)
  | .jnull, .jstr _ => isFalse (fun h => JVal.noConfusion h)
  | .jnull, .jlist _ => isFalse (fun h => JVal.noConfusion h)
  | .jnull, .jdict _ => isFalse (fun h => JVal.noConfusion h)
  | .jbool _, .jnull => isFalse (fun h => JVal.noConfusion h)
  | .jbool _, .jint _ => isFalse (fun h => JVal.noConfusion h)
  | .jbool _, .jstr _ => isFalse (fun h => JVal.noConfusion h)
  | .jbool _, .jlist _ => isFalse (fun h => JVal.noConfusion h)
  | .jbool _, .jdict _ => isFalse (fun h => JVal.noConfusion h)
  | .jint _, .jnull => isFalse (fun h => JVal.noConfusion h)
  | .jint _, .jbool _ => isFalse (fun h => JVal.noConfusion h)
  | .jint _, .jstr _ => isFalse (fun h => JVal.noConfusion h)
  | .jint _, .jlist _ => isFalse (fun h => JVal.noConfusion h)
  | .jint _, .jdict _ => isFalse (fun h => JVal.noConfusion h)
  | .jstr _, .jnull => isFalse (fun h => JVal.noConfusion h)
  | .jstr _, .jbool _ => isFalse (fun h => JVal.noConfusion h)
  | .jstr _, .jint _ => isFalse (fun h => JVal.noConfusion h)
  | .jstr _, .jlist _ => isFalse (fun h => JVal.noConfusion h)
  | .jstr _, .jdict _ => isFalse (fun h => JVal.noConfusion h)
  | .jlist _, .jnull => isFalse (fun h => JVal.noConfusion h)
  | .jlist _, .jbool _ => isFalse (fun h => JVal.noConfusion h)
  | .jlist _, .jint _ => isFalse (fun h => JVal.noConfusion h)
  | .jlist _, .jstr _ => isFalse (fun h => JVal.noConfusion h)
  | .jlist _, .jdict _ => isFalse (fun h => JVal.noConfusion h)
  | .jdict _, .jnull => isFalse (fun h => JVal.noConfusion h)
  | .jdict _, .jbool _ => isFalse (fun h => JVal.noConfusion h)
  | .jdict _, .jint _ => isFalse (fun h => JVal.noConfusion h)
  | .jdict _, .jstr _ => isFalse (fun h => JVal.noConfusion h)
  | .jdict _, .jlist _ => isFalse (fun h => JVal.noConfusion h)

/-- Decidable equality of value lists. -/
def decEqJList : (xs ys : List JVal) → Decidable (xs = ys)
  | [], [] => isTrue rfl
  | [], _ :: _ => isFalse (fun h => List.noConfusion h)
  | _ :: _, [] => isFalse (fun h => List.noConfusion h)
  | x :: xs, y :: ys =>
    match decEqJVal x y with
    | isFalse h1 => isFalse (by simp [h1])
    | isTrue h1 =>
      match decEqJList xs ys with
      | isTrue h2 => isTrue (by rw [h1, h2])
      | isFalse h2 => isFalse (by simp [h2])

/-- Decidable equality of dict field lists. -/
def decEqJFields : (xs ys : List (String × JVal)) → Decidable (xs = ys)
  | [], [] => isTrue rfl
  | [], _ :: _ => isFalse (fun h => List.noConfusion h)
  | _ :: _, [] => isFalse (fun h => List.noConfusion h)
  | (k1, v1) :: xs, (k2, v2) :: ys =>
    if hk : k1 = k2 then
      match decEqJVal v1 v2 with
      | isFalse h1 => isFalse (by simp [h1])
      | isTrue h1 =>
        match decEqJFields xs ys with
        | isTrue h2 => isTrue (by rw [hk, h1, h2])
        | isFalse h2 => isFalse (by simp [h2])
    else isFalse (by simp [hk])
end

instance : DecidableEq JVal := decEqJVal

instance {ε α : Type} [DecidableEq ε] [DecidableEq α] : DecidableEq (Except ε α) := fun a b =>
  match a, b with
  | .ok x, .ok y => if h : x = y then isTrue (by rw [h]) else isFalse (by simp [h])
  | .error x, .error y => if h : x = y then isTrue (by rw [h]) else isFalse (by simp [h])
  | .ok _, .error _ => isFalse (fun h => Except.noConfusion h)
  | .error _, .ok _ => isFalse (fun h => Except.noConfusion h)

/-- A Python dict with string keys, as an association list in insertion
order; the embedding's operations keep keys unique the way CPython does. -/
abbrev JDict := List (String × JVal)

/-- Python `d.get(k)` / `d[k]` lookup: the value at the first occurrence of
the key. -/
def dget : JDict → String → Option JVal
  | [], _ => none
  | (k', v) :: t, k => if k' = k then some v else dget t k

/-- Python `d.get(k)` with its `None` default. -/
def dgetD (d : JDict) (k : String) : JVal := (dget d k).getD JVal.jnull

/-- Python `d[k] = v`: replace the value in place at the key's position, or
append the pair when the key is absent. -/
def dset : JDict → String → JVal → JDict
  | [], k, v => [(k, v)]
  | (k', v') :: t, k, v => if k' = k then (k, v) :: t else (k', v') :: dset t k v

/-- Python `d.setdefault(k, v)`: insert at the end only when absent. -/
def dsetdefault (d : JDict) (k : String) (v : JVal) : JDict :=
  if (dget d k).isSome then d else d ++ [(k, v)]

/-- Python `k in d` for a dict. -/
def dhas (d : JDict) (k : String) : Bool := (dget d k).isSome

/-- Python truthiness of a value (`bool(x)`). -/
def truthy : JVal → Bool
  | .jnull => false
  | .jbool b => b
  | .jint n => decide (n ≠ 0)
  | .jstr s => decide (s ≠ "")
  | .jlist xs => !xs.isEmpty
  | .jdict kvs => !kvs.isEmpty

/-- Python `a or b`: `a` when truthy, else `b`. -/
def pyOr (a b : JVal) : JVal := if truthy a then a else b

/-- Python `isinstance(v, int)`: `True` also for `bool`, which is an `int`
subclass in CPython. -/
def JVal.isPyInt : JVal → Bool
  | .jint _ => true
  | .jbool _ => true
  | _ => false

/-- The numeric value Python arithmetic and comparisons use for an
`int`-instance (`True == 1`, `False == 0`). -/
def JVal.pyIntVal : JVal → Int
  | .jint n => n
  | .jbool b => if b then 1 else 0
  | _ => 0

mutual
/-- Python `repr` of a value, as `str` shows it inside containers. String
escaping inside `repr` of a `str` is not reproduced (no claim evaluates it
on strings that would need escapes). -/
def pyRepr : JVal → String
  | .jnull => "None"
  | .jbool true => "True"
  | .jbool false => "False"
  | .jint n => toString n
  | .jstr s => "'" ++ s ++ "'"
  | .jlist xs => "[" ++ pyReprList xs ++ "]"
  | .jdict kvs => "\x7b" ++ pyReprDict kvs ++ "\x7d"

/-- Comma-joined `repr`s of a list's elements. -/
def pyReprList : List JVal → String
  | [] => ""
  | [x] => pyRepr x
  | x :: xs => pyRepr x ++ ", " ++ pyReprList xs

/-- Comma-joined `repr`s of a dict's items. -/
def pyReprDict : List (String × JVal) → String
  | [] => ""
  | [(k, v)] => "'" ++ k ++ "': " ++ pyRepr v
  | (k, v) :: xs => "'" ++ k ++ "': " ++ pyRepr v ++ ", " ++ pyReprDict xs
end

/-- Python `str(x)`. -/
def pyStr : JVal → String
  | .jstr s => s
  | v => pyRepr v

/-- `normalize_exec_response` (agent_brain.py lines 248-265): bring a raw
webhook response to the stable `ok, action, stdout, stderr, text, exit_code`
shape. This is the mapping-input branch, on the copied dict `d = dict(out)`. -/
def normalizeDict (task : String) (d0 : JDict) : JDict :=
  let d1 := dsetdefault d0 "ok" (.jbool false)
  let d2 := dsetdefault d1 "action" (pyOr (dgetD d1 "action") (.jstr task))
  let d3 := dset d2 "stdout" (pyOr (dgetD d2 "stdout") (.jstr ""))
  let d4 := dset d3 "stderr" (pyOr (dgetD d3 "stderr") (.jstr ""))
  let d5 := dset d4 "text" (pyOr (dgetD d4 "text") (pyOr (dgetD d4 "stdout") (.jstr "")))
  let d6 := dsetdefault d5 "exit_code" ((dget d5 "exit_code").getD ((dget d5 "code").getD .jnull))
  if dgetD d6 "exit_code" = .jnull then
    dset d6 "exit_code" (if truthy (dgetD d6 "ok") then .jint 0 else .jint 1)
  else d6

/-- `normalize_exec_response` (agent_brain.py lines 248-265), all inputs:
a non-mapping raw response is wrapped with `ok=False`, a stringified `text`
and `exit_code=None` (the literal dict at line 254). -/
def normalize_exec_response (task : String) (out : JVal) : JVal :=
  match out with
  | .jdict d => .jdict (normalizeDict task d)
  | v => .jdict [("ok", .jbool false), ("action", .jstr task), ("stdout", .jstr ""),
                 ("stderr", .jstr ""), ("text", .jstr (pyStr v)), ("exit_code", .jnull)]

/-- Python `s.strip()` (whitespace from both ends). -/
def pyTrim (s : String) : String :=
  ((s.toList.dropWhile Char.isWhitespace).reverse.dropWhile Char.isWhitespace).reverse.asString

/-- Python `s.lower()`. `Char.toLower` folds ASCII only; every string the
source compares after lowering is ASCII or already lowercase. -/
def pyLower (s : String) : String := (s.toList.map Char.toLower).asString

/-- Python `s.startswith(p)`. -/
def pyStartsWith (s p : String) : Bool := p.toList.isPrefixOf s.toList

/-- Python `s[:n]`. -/
def pySlice (s : String) (n : Nat) : String := (s.toList.take n).asString

/-- Python `len(s)` for a string (code points). -/
def pyLenStr (s : String) : Nat := s.toList.length

/-- Python `needle in hay` for strings (substring test). -/
def strContains (hay needle : String) : Bool :=
  (List.range (hay.toList.length + 1)).any (fun i => needle.toList.isPrefixOf (hay.toList.drop i))

/-- Python `s.split(",")`. -/
def pySplitComma (s : String) : List String :=
  (s.toList.foldr
    (fun ch acc =>
      match acc with
      | [] => [[ch]]
      | cur :: rest => if ch = ',' then [] :: cur :: rest else (ch :: cur) :: rest)
    [[]]).map List.asString

/-- Python `s.split(":", 1)[1].strip()`; the source only applies it to
strings that start with `"ssh:"`, so the first colon exists. -/
def pySplitColonRest (s : String) : String :=
  pyTrim (((s.toList.dropWhile (fun c => c ≠ ':')).drop 1).asString)

/-- Python `len(x)` for the values it is defined on; `none` models the
`TypeError` raised on the rest. -/
def pyLen : JVal → Option Nat
  | .jstr s => some (pyLenStr s)
  | .jlist xs => some xs.length
  | .jdict kvs => some kvs.length
  | _ => none

/-- `ALLOWED_TASKS` (agent_brain.py lines 126-144). -/
def ALLOWED_TASKS : List String :=
  ["ssh: docker_status", "ssh: healthz", "ssh: backup_now", "ssh: caddy_logs",
   "ssh: list_actions", "ssh: restart_n8n", "ssh: run",
   "n8n: self_test", "n8n: workflows_get", "n8n: get_workflow", "n8n: list_workflows",
   "n8n: workflows_update", "n8n: workflows_update_dryrun", "n8n: workflows_get_dryrun",
   "n8n: executions_list", "ssh: compose_ps"]

/-- `DANGEROUS_TASKS` (agent_brain.py line 145). -/
def DANGEROUS_TASKS : List String := ["ssh: restart_n8n"]

/-- The marker list of `wants_conditional_logs` (agent_brain.py lines 237-244). -/
def CONDITIONAL_MARKERS : List String :=
  ["только если есть проблема", "только если проблема", "если есть проблема",
   "если проблема", "only if", "if problem"]

/-- `wants_conditional_logs` (agent_brain.py lines 232-245). -/
def wants_conditional_logs (userTask : String) : Bool :=
  CONDITIONAL_MARKERS.any (fun m => strContains (pyLower userTask) m)

/-- `MAX_KEEP` of `sanitize_response` (agent_brain.py line 600). -/
def MAX_KEEP : Nat := 800

/-- The nested `_truncate` of `sanitize_response` (agent_brain.py lines 603-608). -/
def _truncate (s : String) : String :=
  if s = "" then ""
  else if pyLenStr s ≤ MAX_KEEP then s
  else pySlice s MAX_KEEP ++ "\n...[truncated]...\n"

/-- The nested `_safe_name` of `sanitize_response` (agent_brain.py lines 610-611). -/
def _safe_name (x : String) : String :=
  (x.toList.map (fun c => if c.isAlphanum ∨ c = '-' ∨ c = '_' ∨ c = '.' then c else '_')).asString

/-- The artifact file name `sanitize_response` builds (agent_brain.py lines
628-630) from the timestamp and the sanitized task name. -/
def artifactName (ts task : String) : String :=
  ts ++ "_" ++ _safe_name ((task.replace " " "_").replace ":" "_") ++ ".log"

/-- Recover one section's body from the artifact parts: the text after the
header in the first part that starts with it. -/
def sectionFor (hdr : String) (parts : List String) : Option String :=
  (parts.find? (fun p => pyStartsWith p hdr)).map (fun p => (p.toList.drop (pyLenStr hdr)).asString)

/-- The `needs_save` test of `sanitize_response` (agent_brain.py line 623),
with Python's left-to-right short-circuit; `none` models the `TypeError` of
`len` on a value with no length. -/
def needsSaveCheck (task : String) (so se tx : JVal) : Option Bool :=
  if task = "ssh: caddy_logs" then some true
  else match pyLen so with
    | none => none
    | some a =>
      if a > MAX_KEEP then some true
      else match pyLen se with
        | none => none
        | some b =>
          if b > MAX_KEEP then some true
          else (pyLen tx).map (fun c => c > MAX_KEEP)

/-- The artifact `parts` of `sanitize_response` (agent_brain.py lines
632-638): a section per truthy stream, the text section only when distinct
from both streams. `none` models the `TypeError` of concatenating the
header with a truthy non-string. -/
def sanitizeParts (so se tx : JVal) : Option (List String) :=
  let sec : JVal → String → Option (List String) := fun v hdr =>
    if truthy v then
      match v with
      | .jstr s => some [hdr ++ s]
      | _ => none
    else some []
  match sec so "=== STDOUT ===\n" with
  | none => none
  | some p1 =>
    match sec se "=== STDERR ===\n" with
    | none => none
    | some p2 =>
      if truthy tx ∧ tx ≠ so ∧ tx ≠ se then
        match tx with
        | .jstr t => some (p1 ++ p2 ++ ["=== TEXT ===\n" ++ t])
        | _ => none
      else some (p1 ++ p2)

/-- `sanitize_response` (agent_brain.py lines 592-650). The filesystem write
is returned as data: `some (out2, some (fname, content))` means the file
named `fname` was written with `content` and the truncated copy `out2` is
returned; `ts` stands for the UTC timestamp `%Y%m%d-%H%M%S`, and the
recorded `_saved_to` keeps the artifact file name (the absolute directory
prefix depends on where the script is installed and is left off). An
overall `none` models an uncaught `TypeError` (a truthy non-string stream);
a non-dict input makes `out.get` raise `AttributeError`, which the
`try/except` at lines 616-621 turns into `return out`. -/
def sanitize_response (ts task : String) (out : JVal) : Option (JVal × Option (String × String)) :=
  match out with
  | .jdict d =>
    let so := pyOr (dgetD d "stdout") (.jstr "")
    let se := pyOr (dgetD d "stderr") (.jstr "")
    let tx := pyOr (dgetD d "text") (.jstr "")
    match needsSaveCheck task so se tx with
    | none => none
    | some false => some (.jdict d, none)
    | some true =>
      match sanitizeParts so se tx with
      | none => none
      | some parts =>
        let fname := artifactName ts task
        let content := String.intercalate "\n\n" parts ++ "\n"
        let d1 := match so with
          | .jstr s => if s ≠ "" then dset d "stdout" (.jstr (_truncate s)) else d
          | _ => d
        let d2 := match se with
          | .jstr s => if s ≠ "" then dset d1 "stderr" (.jstr (_truncate s)) else d1
          | _ => d1
        let d3 := match tx with
          | .jstr s => if s ≠ "" then dset d2 "text" (.jstr (_truncate s)) else d2
          | _ => d2
        some (.jdict (dset d3 "_saved_to" (.jstr fname)), some (fname, content))
  | v => some (v, none)

/-- The manifest search of `validate_handv2_args` (agent_brain.py lines
663-668): the first manifest dict whose stripped `name` equals the stripped
action. -/
def findManifest (action : String) : List JVal → Option JDict
  | [] => none
  | m :: rest =>
    match m with
    | .jdict md =>
      if pyTrim (pyStr ((dget md "name").getD (.jstr ""))) = pyTrim action then some md
      else findManifest action rest
    | _ => findManifest action rest

/-- The required-args check of `validate_handv2_args` (agent_brain.py lines
678-680); `r not in args` is dict-key membership, false for any non-string. -/
def checkRequired (args : JDict) : List JVal → Option String
  | [] => none
  | r :: rest =>
    let present := match r with
      | .jstr s => dhas args s
      | _ => false
    if present then checkRequired args rest
    else some ("missing required arg: " ++ pyStr r)

/-- The per-property type/bounds loop of `validate_handv2_args`
(agent_brain.py lines 687-709). Note `isinstance(v, int)` is true for
CPython booleans, which therefore pass the `integer` check and compare as
0/1 against the bounds; the same holds for a `minimum`/`maximum` that is a
boolean. -/
def checkArgsLoop (propsD : JDict) : JDict → Option String
  | [] => none
  | (k, v) :: rest =>
    match dget propsD k with
    | some (.jdict spec) =>
      let t := dgetD spec "type"
      if t = .jstr "integer" then
        if ¬ v.isPyInt then some ("arg '" ++ k ++ "' must be integer")
        else
          let mn := dgetD spec "minimum"
          let mx := dgetD spec "maximum"
          if mn.isPyInt ∧ v.pyIntVal < mn.pyIntVal then
            some ("arg '" ++ k ++ "' must be >= " ++ pyStr mn)
          else if mx.isPyInt ∧ v.pyIntVal > mx.pyIntVal then
            some ("arg '" ++ k ++ "' must be <= " ++ pyStr mx)
          else checkArgsLoop propsD rest
      else if t = .jstr "string" then
        match v with
        | .jstr _ => checkArgsLoop propsD rest
        | _ => some ("arg '" ++ k ++ "' must be string")
      else if t = .jstr "boolean" then
        match v with
        | .jbool _ => checkArgsLoop propsD rest
        | _ => some ("arg '" ++ k ++ "' must be boolean")
      else checkArgsLoop propsD rest
    | _ => checkArgsLoop propsD rest

/-- `validate_handv2_args` (agent_brain.py lines 653-711). `.ok none` is a
pass, `.ok (some msg)` the returned error string, `.error` a raised
exception (a malformed schema whose parts are truthy non-dicts/non-lists;
CPython would raise `TypeError`/`AttributeError` at the first such use; no
manifest the repository produces is of that shape). -/
def validate_handv2_args (action : String) (args0 : JVal) (manifests : Option (List JVal)) :
    Except String (Option String) :=
  let args1 := if args0 = .jnull ∨ args0 = .jstr "" then .jdict [] else args0
  match args1 with
  | .jdict args =>
    match (match manifests with | some l => findManifest action l | none => none) with
    | none => .ok none
    | some md =>
      if md.isEmpty then .ok none
      else
        match pyOr (dgetD md "args_schema") (.jdict []) with
        | .jdict sch =>
          let additional := (dget sch "additionalProperties").getD (.jbool true)
          match pyOr (dgetD sch "properties") (.jdict []) with
          | .jdict propsD =>
            match pyOr (dgetD sch "required") (.jlist []) with
            | .jlist reqL =>
              match checkRequired args reqL with
              | some msg => .ok (some msg)
              | none =>
                if additional = .jbool false then
                  let extra := (args.map Prod.fst).filter (fun k => ¬ dhas propsD k)
                  if extra ≠ [] then .ok (some ("unknown args: " ++ String.intercalate ", " extra))
                  else .ok (checkArgsLoop propsD args)
                else .ok (checkArgsLoop propsD args)
            | _ => .error "TypeError"
          | _ => .error "AttributeError"
        | _ => .error "AttributeError"
  | _ => .ok (some "params.args must be an object (dict)")

/-- The default of the `RECOVERY_SSH_ACTIONS` environment option
(agent_brain.py line 268). -/
def DEFAULT_RECOVERY_SSH_ACTIONS : String := "compose_up,compose_restart,compose_ps,compose_logs"

/-- `_ssh_fallback_actions` (agent_brain.py lines 267-269), over the raw
environment string; the Python set is kept as a list, only membership is
used. -/
def _ssh_fallback_actions (raw : String) : List String :=
  ((pySplitComma raw).map pyTrim).filter (fun x => x ≠ "")

/-- Outcome of the `subprocess.run(["ssh", ...])` call inside
`_call_handv2_via_ssh`: an exception (timeout, missing binary), or a
completed process with its return code and decoded streams. -/
inductive SshOutcome where
  | exn (msg : String)
  | ran (returncode : Int) (stdout stderr : String)
  deriving DecidableEq

/-- The error-dict shape `_call_handv2_via_ssh` builds on its failure paths
(agent_brain.py lines 289, 294, 304). -/
def sshFallbackErrDict (msg rid stdoutVal : String) : JVal :=
  .jdict [("ok", .jbool false), ("action", .jstr "ssh: run"), ("stdout", .jstr stdoutVal),
          ("stderr", .jstr msg), ("text", .jstr msg), ("exit_code", .jint 1),
          ("request_id", .jstr rid), ("_fallback", .jstr "ssh")]

/-- `_call_handv2_via_ssh` (agent_brain.py lines 271-304). `jsonParse` is
the `json.loads` oracle (`.error` = the exception text), `rid` the generated
`rq_sshfb_...` request id, `outcome` what the ssh subprocess did; `_params`
is the payload forwarded to the remote process, which only the oracle's
world sees. -/
def _call_handv2_via_ssh (jsonParse : String → Except String JVal) (rid : String)
    (outcome : SshOutcome) (_params : JVal) : JVal :=
  match outcome with
  | .exn ex => sshFallbackErrDict ("SSH fallback failed: " ++ ex) rid ""
  | .ran rc so se =>
    if rc ≠ 0 ∧ pyTrim so = "" then
      sshFallbackErrDict (if pyTrim se ≠ "" then pyTrim se else "ssh exit_code=" ++ toString rc) rid ""
    else
      match (if pyTrim so = "" then Except.ok (JVal.jdict []) else jsonParse so) with
      | .ok (.jdict d) =>
        .jdict (dset (dsetdefault d "request_id" (.jstr rid)) "_fallback" (.jstr "ssh"))
      | _ => sshFallbackErrDict (if pyTrim se ≠ "" then pyTrim se else "SSH fallback returned non-JSON") rid so

/-- Outcome of the `httpx` POST inside `call_agent_exec`: an exception from
`client.post` (connection error, timeout), or a response with status code
and body text. -/
inductive HttpOutcome where
  | exn (msg : String)
  | resp (status : Nat) (body : String)
  deriving DecidableEq

/-- The failure classification of `call_agent_exec`'s primary path
(agent_brain.py lines 313-329): the exception text when the call is treated
as failed (connection error, non-2xx, blank body, unparsable body), `none`
on success. -/
def primaryFailure (jsonParse : String → Except String JVal) : HttpOutcome → Option String
  | .exn m => some m
  | .resp status body =>
    if ¬ (200 ≤ status ∧ status < 300) then
      some ("agent-exec http " ++ toString status ++ ": " ++ pySlice body 500)
    else if pyTrim body = "" then some "agent-exec empty response body"
    else
      match jsonParse body with
      | .ok _ => none
      | .error e => some e

/-- The parsed JSON body returned on `call_agent_exec`'s success path;
meaningful only when `primaryFailure` is `none`. -/
def primarySuccessValue (jsonParse : String → Except String JVal) : HttpOutcome → JVal
  | .exn _ => .jnull
  | .resp _ body =>
    match jsonParse body with
    | .ok v => v
    | .error _ => .jnull

/-- `call_agent_exec` (agent_brain.py lines 306-340). The second component
counts the `_call_handv2_via_ssh` invocations (0 or 1), making "fallback
invoked exactly once" a statement about the returned value. -/
def call_agent_exec (jsonParse : String → Except String JVal) (primary : HttpOutcome)
    (sshOutcome : SshOutcome) (rid recoveryRaw : String)
    (task : String) (params : Option JVal) : JVal × Nat :=
  match primaryFailure jsonParse primary with
  | none => (primarySuccessValue jsonParse primary, 0)
  | some exMsg =>
    let failRes : JVal :=
      .jdict [("ok", .jbool false), ("action", .jstr task), ("stdout", .jstr ""),
              ("stderr", .jstr ("agent-exec call failed: " ++ exMsg)),
              ("text", .jstr ("agent-exec call failed: " ++ exMsg)), ("exit_code", .jint 1)]
    if task = "ssh: run" then
      match params with
      | some (.jdict p) =>
        let action := pyTrim (pyStr ((dget p "action").getD (.jstr "")))
        if action ≠ "" ∧ action ∈ _ssh_fallback_actions recoveryRaw then
          (_call_handv2_via_ssh jsonParse rid sshOutcome (.jdict p), 1)
        else (failRes, 0)
      | _ => (failRes, 0)
    else (failRes, 0)

/-- Python `v in l` for a value against a container of strings: equality
with a string holds only for a string. -/
def jvalInStrList (v : JVal) (l : List String) : Bool :=
  match v with
  | .jstr s => decide (s ∈ l)
  | _ => false

/-- `_n8n_allowlist` (agent_brain.py lines 341-343), over the raw
`N8N_ALLOW_WORKFLOW_IDS` environment string. -/
def _n8n_allowlist (raw : String) : List String :=
  ((pySplitComma raw).map pyTrim).filter (fun x => x ≠ "")

/-- `_n8n_allow_write` (agent_brain.py lines 355-356), over the raw
`N8N_ALLOW_WRITE` environment string (`"0"` when unset). -/
def _n8n_allow_write (raw : String) : Bool :=
  pyTrim raw ∈ (["1", "true", "yes", "on"] : List String)

/-- The error-result shape `call_n8n` returns (agent_brain.py, e.g. lines
503, 506, 508). -/
def n8nErr (task msg : String) : JVal :=
  .jdict [("ok", .jbool false), ("action", .jstr task), ("stdout", .jstr ""),
          ("stderr", .jstr msg), ("text", .jstr msg), ("exit_code", .jint 1)]

/-- The `"n8n: workflows_update"` branch of `call_n8n` (agent_brain.py lines
500-529). `allowWrite` is `_n8n_allow_write()`, `allow` the `_n8n_allowlist()`
computed at line 369, `readFile` the `json.loads(Path(...).read_text())`
oracle, `req` the HTTP helper of lines 371-389 (method, path, body →
response dict). -/
def n8n_workflows_update (allowWrite : Bool) (allow : List String)
    (readFile : String → Except String JVal) (req : String → String → JVal → JVal)
    (p : JDict) : JVal :=
  let task := "n8n: workflows_update"
  if ¬ allowWrite then n8nErr task "WRITE disabled (set N8N_ALLOW_WRITE=1)"
  else
    let wid := pyOr (dgetD p "workflow_id") (dgetD p "id")
    if ¬ truthy wid then n8nErr task "params.workflow_id required"
    else if allow ≠ [] ∧ jvalInStrList wid allow = false then
      n8nErr task ("workflow_id not in allowlist: " ++ pyStr wid)
    else
      let wf0 := pyOr (dgetD p "workflow") (dgetD p "data")
      match (if (wf0 = .jnull ∨ wf0 = .jdict []) ∧ truthy (dgetD p "file")
             then readFile (pyStr (dgetD p "file")) else .ok wf0) with
      | .error ex => n8nErr task ("failed to load params.file: " ++ ex)
      | .ok wf1 =>
        let wf2 : JVal := match wf1 with
          | .jdict w =>
            let filtered : JDict :=
              (["name", "nodes", "connections", "settings"].filter (fun k => dhas w k)).map
                (fun k => (k, dgetD w k))
            .jdict (if ¬ dhas filtered "settings" ∨ dget filtered "settings" = some .jnull
                    then dset filtered "settings" (.jdict []) else filtered)
          | _ => wf1
        match wf2 with
        | .jdict w =>
          if w.isEmpty then n8nErr task "params.workflow (object) required"
          else if dhas w "id" ∧ pyStr (dgetD w "id") ≠ pyStr wid then
            n8nErr task "workflow.id mismatch with params.workflow_id"
          else req "PUT" ("/workflows/" ++ pyStr wid) (.jdict (w.filter (fun kv => kv.1 ≠ "id")))
        | _ => n8nErr task "params.workflow (object) required"

/-- A normalized plan action as `validate_plan` returns them
(agent_brain.py line 226): `{"task": task, "reason": str(reason), "params": params}`. -/
structure NAction where
  task : String
  reason : String
  params : JDict
  deriving DecidableEq

/-- `ALLOWED_TASKS` in Python's sorted order, for the invalid-task message
of `validate_plan` (agent_brain.py line 217). -/
def ALLOWED_TASKS_SORTED : List String :=
  ["n8n: executions_list", "n8n: get_workflow", "n8n: list_workflows", "n8n: self_test",
   "n8n: workflows_get", "n8n: workflows_get_dryrun", "n8n: workflows_update",
   "n8n: workflows_update_dryrun", "ssh: backup_now", "ssh: caddy_logs", "ssh: compose_ps",
   "ssh: docker_status", "ssh: healthz", "ssh: list_actions", "ssh: restart_n8n", "ssh: run"]

/-- The Hand-v2 hardening loop of `validate_plan` (agent_brain.py lines
194-204): reject `confirm` inside `params.args` and, when manifests are
known, any unknown `ssh: run` action. `.error "AttributeError"` models the
exception a non-dict entry or non-dict truthy `params` raises at its first
`.get`; `main` treats any exception from `validate_plan` as an invalid
plan (line 3123-3128). -/
def hardenCheck (hv2Allowed : List String) : List JVal → Except String Unit
  | [] => .ok ()
  | a :: rest =>
    match a with
    | .jdict ad =>
      let task := dgetD ad "task"
      if task = .jstr "ssh: run" then
        match pyOr (dgetD ad "params") (.jdict []) with
        | .jdict pd =>
          let argsOk : Except String Unit :=
            match pyOr (dgetD pd "args") (.jdict []) with
            | .jdict argsD =>
              if dhas argsD "confirm"
              then .error "confirm must be params.confirm (not inside params.args)"
              else .ok ()
            | _ => .ok ()
          match argsOk with
          | .error e => .error e
          | .ok () =>
            let act := dgetD pd "action"
            if hv2Allowed ≠ [] ∧ truthy act ∧ jvalInStrList act hv2Allowed = false then
              .error ("unknown Hand v2 action for ssh: run: " ++ pyStr act)
            else hardenCheck hv2Allowed rest
        | _ => .error "AttributeError"
      else hardenCheck hv2Allowed rest
    | _ => .error "AttributeError"

/-- The normalization loop of `validate_plan` (agent_brain.py lines
211-227), numbering actions from `i`. -/
def normalizeActions : Nat → List JVal → Except String (List NAction)
  | _, [] => .ok []
  | i, a :: rest =>
    match a with
    | .jdict ad =>
      let task := dgetD ad "task"
      match (match task with
             | .jstr s => if s ∈ ALLOWED_TASKS then some s else none
             | _ => none) with
      | none =>
        .error ("Action #" ++ toString i ++ " has invalid task: " ++ pyStr task ++
                ". Allowed: " ++ pyRepr (.jlist (ALLOWED_TASKS_SORTED.map .jstr)))
      | some s =>
        let reason0 := (dget ad "reason").getD (.jstr "")
        let reason1 := if reason0 = .jnull then .jstr "" else reason0
        let params0 := dgetD ad "params"
        let params1 := if params0 = .jnull then .jdict [] else params0
        match params1 with
        | .jdict pd =>
          match normalizeActions (i + 1) rest with
          | .error e => .error e
          | .ok l => .ok (⟨s, pyStr reason1, pd⟩ :: l)
        | _ => .error ("Action #" ++ toString i ++ " params must be an object.")
    | _ => .error ("Action #" ++ toString i ++ " must be an object.")

/-- `validate_plan` (agent_brain.py lines 186-227). `hv2Allowed` is
`set(handv2_index.keys())`. A `.error` is a raised `ValueError` (or, for
malformed entries, the `AttributeError`/`TypeError` CPython would raise);
`main` catches them all alike and abandons the plan. A truthy non-list
`"actions"` value always raises during the first loop (iterating an int
raises at once, a non-empty str or dict yields non-dict items). -/
def validate_plan (hv2Allowed : List String) (plan : JVal) : Except String (List NAction) :=
  match plan with
  | .jdict pd =>
    let harden :=
      match pyOr ((dget pd "actions").getD (.jlist [])) (.jlist []) with
      | .jlist l => hardenCheck hv2Allowed l
      | _ => .error "TypeError"
    match harden with
    | .error e => .error e
    | .ok () =>
      match dget pd "actions" with
      | some (.jlist l) =>
        if l.isEmpty then .error "Plan must contain non-empty 'actions' list."
        else normalizeActions 1 l
      | _ => .error "Plan must contain non-empty 'actions' list."
  | _ => .error "AttributeError"

/-- `index_handv2_manifests` (agent_brain.py lines 31-42): the
name-to-manifest index, later names overwriting earlier ones. -/
def index_handv2_manifests (manifests : Option (List JVal)) : JDict :=
  match manifests with
  | none => []
  | some ms =>
    ms.foldl
      (fun idx m =>
        match m with
        | .jdict md =>
          match dget md "name" with
          | some (.jstr s) => if pyTrim s ≠ "" then dset idx (pyTrim s) (.jdict md) else idx
          | _ => idx
        | _ => idx)
      []

/-- The manifest-defaults application shared by the direct path
(agent_brain.py lines 736-749) and the dispatch loop (lines 3206-3226):
for each declared property with a `default`, fill it into the args when
absent. -/
def applyManifestDefaults (idx : JDict) (action : String) (args : JDict) : JDict :=
  let m := pyOr (dgetD idx action) (.jdict [])
  let schema := match m with
    | .jdict md => pyOr (dgetD md "args_schema") (.jdict [])
    | _ => .jdict []
  let props := match schema with
    | .jdict sd => pyOr (dgetD sd "properties") (.jdict [])
    | _ => .jdict []
  match props with
  | .jdict propsD =>
    propsD.foldl
      (fun a kv =>
        match kv.2 with
        | .jdict specD =>
          if ¬ dhas a kv.1 ∧ dhas specD "default" then dset a kv.1 (dgetD specD "default") else a
        | _ => a)
      args
  | _ => args

/-- Python `s.split()` (whitespace runs, empties dropped). -/
def pySplitWs (s : String) : List String :=
  ((s.toList.foldr
      (fun ch acc =>
        match acc with
        | [] => [[ch]]
        | cur :: rest => if Char.isWhitespace ch then [] :: cur :: rest else (ch :: cur) :: rest)
      [[]]).map List.asString).filter (fun x => x ≠ "")

/-- A Python str-keyed, str-valued dict assignment (`kv[k] = v`). -/
def strDictSet : List (String × String) → String → String → List (String × String)
  | [], k, v => [(k, v)]
  | (k', v') :: t, k, v => if k' = k then (k, v) :: t else (k', v') :: strDictSet t k v

/-- Lookup in a str-keyed, str-valued dict. -/
def strDictGet : List (String × String) → String → Option String
  | [], _ => none
  | (k', v) :: t, k => if k' = k then some v else strDictGet t k

/-- The `k=v` extraction loop of `_parse_direct_ssh_run` (agent_brain.py
lines 95-100): tokens without `=` are skipped, keys are stripped and
lowered, values stripped, later keys overwrite. -/
def parseKVs (parts : List String) : List (String × String) :=
  parts.foldl
    (fun kv part =>
      if part.toList.contains '=' then
        strDictSet kv (pyLower (pyTrim ((part.toList.takeWhile (fun c => c ≠ '=')).asString)))
          (pyTrim (((part.toList.dropWhile (fun c => c ≠ '=')).drop 1).asString))
      else kv)
    []

/-- `_parse_direct_ssh_run` (agent_brain.py lines 88-124) from the text
after the `^ssh\s*:\s*run\b\s*:?` regex match (the `rest` captured group);
`jsonParse` is the `json.loads` oracle for the `args=` value. The returned
dict is the `params` of the `{"task": "ssh: run", "params": params}` the
source builds. -/
def _parse_direct_ssh_run_rest (jsonParse : String → Except String JVal) (rest : String) :
    Option JDict :=
  let kv := parseKVs (pySplitWs rest)
  match strDictGet kv "action" with
  | none => none
  | some action =>
    if action = "" then none
    else
      let m0 := match strDictGet kv "mode" with
        | some s => if s ≠ "" then s else "check"
        | none => "check"
      let mode1 := pyLower (pyTrim m0)
      let mode := if mode1 ∈ (["check", "plan", "apply"] : List String) then mode1 else "check"
      let args : JVal := match strDictGet kv "args" with
        | none => .jdict []
        | some a =>
          match jsonParse a with
          | .ok (.jdict d) => .jdict d
          | _ => .jdict []
      let confirm := pyTrim ((strDictGet kv "confirm").getD "")
      some ([("action", .jstr action), ("mode", .jstr mode), ("args", args)] ++
            (if confirm ≠ "" then [("confirm", .jstr confirm)] else []))

/-- What the direct CLI path did with a parsed `ssh: run` command. -/
inductive DirectResult where
  | rejected (errmsg : String)
  | dispatched (sent : JDict) (response : JVal)
  deriving DecidableEq

/-- The direct-invocation path of `main` (agent_brain.py lines 726-804)
from the parsed params `p0` on: apply manifest defaults, validate the args,
and either print the rejection report (exit 1, no dispatch) or send the
params to `call_agent_exec` and normalize the response. `manifests` is the
refreshed-or-cached manifest list, `callExec` the transport oracle.
CPython mutates the `args` dict in place, so the dispatched params carry
the defaults exactly when `p0`'s own `args` value was truthy (a falsy or
absent `args` makes `_args` a fresh dict that `_p` never sees). -/
def direct_ssh_run (manifests : Option (List JVal)) (callExec : JDict → JVal) (p0 : JDict) :
    Except String DirectResult :=
  let action := pyTrim (pyStr ((dget p0 "action").getD (.jstr "")))
  let argsD0 : JDict := match pyOr (dgetD p0 "args") (.jdict []) with
    | .jdict d => d
    | _ => []
  let idx := index_handv2_manifests manifests
  let args1 := applyManifestDefaults idx action argsD0
  let pSent := if truthy (dgetD p0 "args") then dset p0 "args" (.jdict args1) else p0
  match validate_handv2_args action (.jdict args1) manifests with
  | .error e => .error e
  | .ok (some err) => .ok (.rejected ("ssh: run → " ++ action ++ " rejected: " ++ err))
  | .ok none => .ok (.dispatched pSent (normalize_exec_response "ssh: run" (callExec pSent)))

/-- The dispatch loop's per-session context: the Hand-v2 manifest index,
the `ALLOW_DANGEROUS` flag (agent_brain.py line 3104), the two transport
oracles (`call_agent_exec` at line 3229/3303/3325 with its url and chat id
fixed, `call_n8n` at line 3303, whose `httpx` use may raise), and the
timestamp `sanitize_response` stamps artifacts with. -/
structure Env where
  handv2Index : JDict
  allowDangerous : Bool
  callAgentExec : String → Option JDict → JVal
  callN8n : String → JDict → Except String JVal
  ts : String

/-- One element of the loop's `results` list (agent_brain.py lines
3162-3328): a `{"task", "params"?, "resolved_task"?, "response"}` record, a
`{"task", "skipped": True, "why": "dangerous"}` record, or a
`{"task", "error": msg}` record. -/
inductive REntry where
  | resp (task : String) (params : Option JDict) (resolvedTask : Option String) (response : JVal)
  | skipped (task : String)
  | error (task : String) (msg : String)
  deriving DecidableEq

/-- A transport invocation the loop performed: the task sent and the
`params` payload (`none` when `call_agent_exec` is called without params,
as the legacy and caddy_logs calls are). -/
structure CallRec where
  task : String
  params : Option JDict
  deriving DecidableEq

/-- The inline error-response dicts of the `ssh: run` validations
(agent_brain.py lines 3162, 3168, 3174, 3264, 3271). -/
def sshRunErrResp (actionName msg : String) : JVal :=
  .jdict [("ok", .jbool false), ("action", .jstr actionName), ("stdout", .jstr ""),
          ("stderr", .jstr msg), ("text", .jstr msg), ("exit_code", .jint 1)]

/-- `params.get('action')` of an `ssh: run` plan action (line 3156). -/
def sshRunActionV (params : JDict) : JVal := dgetD params "action"

/-- Line 3157: the mode string, stripped and lowered, defaulting to check. -/
def sshRunMode (params : JDict) : String :=
  pyLower (pyTrim (pyStr (pyOr (dgetD params "mode") (.jstr "check"))))

/-- Line 3158: the args value, defaulting to an empty dict. -/
def sshRunArgsV (params : JDict) : JVal := pyOr (dgetD params "args") (.jdict [])

/-- Truthiness of `out.get('ok', False)` on a response (lines 3246, 3314). -/
def respOkTruthy (response : JVal) : Bool :=
  truthy (match response with
          | .jdict d => (dget d "ok").getD (.jbool false)
          | _ => .jbool false)

/-- The execute step shared by every gate-passing action (agent_brain.py
lines 3302-3319): route to `call_n8n` or `call_agent_exec`, normalize,
sanitize, and record; any exception in the `try` block (a raising n8n
call, or `sanitize_response`'s `TypeError` on a truthy non-string stream)
becomes an `error` record. Returns (appended results, issue_found
contribution, transport calls). -/
def runTransport (env : Env) (task : String) (params : JDict) :
    List REntry × Bool × List CallRec :=
  let isN8n := pyStartsWith task "n8n:"
  let call : CallRec := ⟨task, if isN8n then some params else none⟩
  let res : Except String JVal :=
    if isN8n then env.callN8n task params else .ok (env.callAgentExec task none)
  match res with
  | .error ex => ([.error task ex], true, [call])
  | .ok outRaw =>
    match sanitize_response env.ts task (normalize_exec_response task outRaw) with
    | some (out, _art) => ([.resp task none none out], !respOkTruthy out, [call])
    | none => ([.error task "TypeError"], true, [call])

/-- The dangerous-task gate and the execution step (agent_brain.py lines
3283-3319): a dangerous task with `ALLOW_DANGEROUS` unset is recorded as
skipped, except that a gate-time `ssh: run` in mode `apply` with a truthy
stripped confirm token passes through. -/
def gateAndRun (env : Env) (task : String) (params : JDict) :
    List REntry × Bool × List CallRec :=
  if task ∈ DANGEROUS_TASKS ∧ ¬ env.allowDangerous then
    if task = "ssh: run" then
      let m := pyLower (pyTrim (pyStr (pyOr (dgetD params "mode") (.jstr "check"))))
      let c := pyTrim (pyStr (pyOr (dgetD params "confirm") (.jstr "")))
      if m = "apply" ∧ c ≠ "" then runTransport env task params
      else ([.skipped task], true, [])
    else ([.skipped task], true, [])
  else runTransport env task params

/-- One iteration of the dispatch loop (agent_brain.py lines 3149-3319) on
a normalized plan action. `.error` models an exception that escapes the
loop body (only possible in the Hand-v2 branch, whose `sanitize_response`
call is outside any `try`). -/
def stepAction (env : Env) (a : NAction) : Except String (List REntry × Bool × List CallRec) :=
  if a.task = "ssh: run" then
    let params := a.params
    let actionV := sshRunActionV params
    let mode := sshRunMode params
    if ¬ truthy actionV then
      .ok ([.resp "ssh: run" none none (sshRunErrResp "ssh: run" "params.action required for ssh: run")],
           true, [])
    else if ¬ (mode = "check" ∨ mode = "plan" ∨ mode = "apply") then
      .ok ([.resp "ssh: run" none none (sshRunErrResp "ssh: run" "invalid params.mode (use check|plan|apply)")],
           true, [])
    else
      match sshRunArgsV params with
      | .jdict args =>
        let rawAction := pyTrim (pyStr actionV)
        let hv2Action := if pyStartsWith rawAction "ssh:" then pySplitColonRest rawAction else rawAction
        let hv2Keys := env.handv2Index.map Prod.fst
        let useHv2 := (!args.isEmpty) || ((!hv2Keys.isEmpty) && decide (rawAction ∈ hv2Keys))
        if useHv2 then
          let args1 := applyManifestDefaults env.handv2Index hv2Action args
          let confirmV := dgetD params "confirm"
          let callParams : JDict :=
            [("action", .jstr hv2Action), ("mode", .jstr mode), ("args", .jdict args1)] ++
            (if truthy confirmV then [("confirm", confirmV)] else [])
          let outRaw := env.callAgentExec "ssh: run" (some callParams)
          match sanitize_response env.ts "ssh: run" (normalize_exec_response "ssh: run" outRaw) with
          | some (out, _art) =>
            let recParams : JDict :=
              [("action", .jstr hv2Action), ("mode", .jstr mode), ("args", .jdict args1)]
            .ok ([.resp "ssh: run" (some recParams) none out], !respOkTruthy out,
                 [⟨"ssh: run", some callParams⟩])
          | none => .error "TypeError"
        else if ¬ args.isEmpty then
          .ok ([.resp "ssh: run" none none (sshRunErrResp "ssh: run" "legacy ssh:* fallback does not support params.args")],
               true, [])
        else
          let resolved := if pyStartsWith rawAction "ssh:" then rawAction else "ssh: " ++ rawAction
          if resolved ∉ ALLOWED_TASKS then
            .ok ([.resp "ssh: run" none (some resolved)
                    (sshRunErrResp resolved ("unsupported ssh: run action: " ++ rawAction))],
                 true, [])
          else .ok (gateAndRun env resolved [])
      | _ =>
        .ok ([.resp "ssh: run" none none (sshRunErrResp "ssh: run" "params.args must be an object")],
             true, [])
  else .ok (gateAndRun env a.task a.params)

/-- The dispatch loop over `base_actions` (agent_brain.py lines 3149-3319),
accumulating `results`, `issue_found` and the transport call log. -/
def runLoop (env : Env) : List NAction → Except String (List REntry × Bool × List CallRec)
  | [] => .ok ([], false, [])
  | a :: rest =>
    match stepAction env a with
    | .error e => .error e
    | .ok (e1, i1, c1) =>
      match runLoop env rest with
      | .error e => .error e
      | .ok (e2, i2, c2) => .ok (e1 ++ e2, i1 || i2, c1 ++ c2)

/-- The conditional `caddy_logs` fetch (agent_brain.py lines 3323-3332):
one `call_agent_exec`, normalized and sanitized; its `try/except` catches
every exception into an `error` record. -/
def caddyFetch (env : Env) : REntry × CallRec :=
  let outRaw := env.callAgentExec "ssh: caddy_logs" none
  match sanitize_response env.ts "ssh: caddy_logs" (normalize_exec_response "ssh: caddy_logs" outRaw) with
  | some (out, _art) => (.resp "ssh: caddy_logs" none none out, ⟨"ssh: caddy_logs", none⟩)
  | none => (.error "ssh: caddy_logs" "TypeError", ⟨"ssh: caddy_logs", none⟩)

/-- The EXEC section of `main` (agent_brain.py lines 3140-3332): in
conditional-logs mode drop `ssh: caddy_logs` from the base list, run the
loop, then fetch the logs once when an issue was found. -/
def execSection (env : Env) (userTask : String) (actions : List NAction) :
    Except String (List REntry × List CallRec) :=
  let conditional := wants_conditional_logs userTask
  let base := if conditional then actions.filter (fun a => a.task ≠ "ssh: caddy_logs") else actions
  match runLoop env base with
  | .error e => .error e
  | .ok (rs, issue, cs) =>
    if conditional ∧ issue then .ok (rs ++ [(caddyFetch env).1], cs ++ [(caddyFetch env).2])
    else .ok (rs, cs)

/-- The aggregation test of the report loop (agent_brain.py lines
3336-3346): an entry flips `overall_ok` when its `error` value is truthy,
its `skipped` value is truthy, or its response's `ok` is the literal
`False` (`is False`). -/
def aggBad : REntry → Bool
  | .error _ msg => decide (msg ≠ "")
  | .skipped _ => true
  | .resp _ _ _ response =>
    match response with
    | .jdict d => decide (dget d "ok" = some (.jbool false))
    | _ => false

/-- The `issue_found` classification of an entry as the loop records it:
an error, a gate skip, or a response whose `ok` is falsy (lines 3161-3317). -/
def initialBad : REntry → Bool
  | .error _ _ => true
  | .skipped _ => true
  | .resp _ _ _ response => !respOkTruthy response

/-- `overall_ok` of the session report (agent_brain.py lines 3335-3346). -/
def sessionOk (rs : List REntry) : Bool := !(rs.any aggBad)

/-- The report's `exit_code` and `main`'s return value (lines 3347-3349). -/
def sessionExitCode (rs : List REntry) : Nat := if sessionOk rs then 0 else 1

/-- The exit-code value `normalize_exec_response` leaves on a mapping input
(the combined effect of lines 262-264): the carried `exit_code` (falling
back to `code`), with `None` replaced by 0 when `ok` is truthy and 1
otherwise. -/
def normExitValue (d : JDict) : JVal :=
  let e := (dget d "exit_code").getD ((dget d "code").getD .jnull)
  if e = .jnull then (if truthy ((dget d "ok").getD (.jbool false)) then .jint 0 else .jint 1)
  else e

/-- The stripped action name `call_agent_exec` consults for the fallback
decision (agent_brain.py line 334). -/
def sshRunFallbackAction (p : JDict) : String := pyTrim (pyStr ((dget p "action").getD (.jstr "")))

/-- The stripped confirm token the dangerous-task gate reads
(agent_brain.py line 3288). -/
def gateConfirm (params : JDict) : String := pyTrim (pyStr (pyOr (dgetD params "confirm") (.jstr "")))

/-- The transport calls one loop iteration performed (empty when the
iteration raised, after which `main` itself dies). -/
def stepTransportCalls (env : Env) (a : NAction) : List CallRec :=
  match stepAction env a with
  | .ok (_, _, c) => c
  | .error _ => []

/-- Whether a raw plan entry is an `ssh: run` action carrying a `confirm`
key inside its args mapping — the configuration `validate_plan`'s
hardening loop rejects (agent_brain.py lines 198-201). -/
def confirmInsideArgs (a : JVal) : Bool :=
  match a with
  | .jdict ad =>
    dgetD ad "task" = .jstr "ssh: run" &&
    (match pyOr (dgetD ad "params") (.jdict []) with
     | .jdict pd =>
       match pyOr (dgetD pd "args") (.jdict []) with
       | .jdict argsD => dhas argsD "confirm"
       | _ => false
     | _ => false)
  | _ => false

/-- The Hand-v2 call params the dispatch loop builds for an `ssh: run`
action (agent_brain.py line 3233). -/
def hv2CallParams (env : Env) (params : JDict) (args : JDict) : JDict :=
  let rawAction := pyTrim (pyStr (sshRunActionV params))
  let hv2Action := if pyStartsWith rawAction "ssh:" then pySplitColonRest rawAction else rawAction
  let args1 := applyManifestDefaults env.handv2Index hv2Action args
  let confirmV := dgetD params "confirm"
  [("action", .jstr hv2Action), ("mode", .jstr (sshRunMode params)), ("args", .jdict args1)] ++
  (if truthy confirmV then [("confirm", confirmV)] else [])

/-- A one-action manifest list declaring a single integer argument with
inclusive bounds, the scenario shape of the integer-bounds property. -/
def intBoundManifest (name key : String) (mn mx : Int) : List JVal :=
  [.jdict [("name", .jstr name),
           ("args_schema", .jdict [("properties", .jdict
             [(key, .jdict [("type", .jstr "integer"), ("minimum", .jint mn), ("maximum", .jint mx)])])])]]

/-- The sanitized mapping `sanitize_response` returns on the saving path
(agent_brain.py lines 628-637): each non-empty stream replaced by its
truncated copy, then the artifact path recorded under `_saved_to`. -/
def sanitizeOut2 (ts task : String) (d : JDict) (so se tx : String) : JDict :=
  let d1 := if so ≠ "" then dset d "stdout" (.jstr (_truncate so)) else d
  let d2 := if se ≠ "" then dset d1 "stderr" (.jstr (_truncate se)) else d1
  let d3 := if tx ≠ "" then dset d2 "text" (.jstr (_truncate tx)) else d2
  dset d3 "_saved_to" (.jstr (artifactName ts task))

/-- The Hand-v2 action name the dispatch loop derives from the raw
`params.action` value (agent_brain.py lines 3190-3193): stripped, and with
a leading `ssh:` prefix removed. -/
def hv2ActionOf (params : JDict) : String :=
  let rawAction := pyTrim (pyStr (sshRunActionV params))
  if pyStartsWith rawAction "ssh:" then pySplitColonRest rawAction else rawAction

/-! Dictionary lemmas: how `dget` interacts with `dset`, `dsetdefault` and
append, mirroring CPython dict reads after writes. -/

theorem dget_dset (d : JDict) (k k' : String) (v : JVal) :
    dget (dset d k v) k' = if k = k' then some v else dget d k' := by
  induction d with
  | nil => simp [dset, dget]
  | cons p t ih =>
    obtain ⟨k0, v0⟩ := p
    by_cases h0 : k0 = k <;> by_cases h2 : k = k' <;> simp_all [dset, dget]

theorem dset_of_dget (d : JDict) (k : String) (v : JVal) (h : dget d k = some v) :
    dset d k v = d := by
  induction d with
  | nil => simp [dget] at h
  | cons p t ih =>
    obtain ⟨k0, v0⟩ := p
    by_cases h0 : k0 = k
    · subst h0
      simp [dget] at h
      simp [dset, h]
    · simp [dget, h0] at h
      simp [dset, h0, ih h]

theorem dget_append_some (d₁ d₂ : JDict) (k : String) (v : JVal) (h : dget d₁ k = some v) :
    dget (d₁ ++ d₂) k = some v := by
  induction d₁ with
  | nil => simp [dget] at h
  | cons p t ih =>
    obtain ⟨k0, v0⟩ := p
    by_cases h0 : k0 = k <;> simp_all [dget]

theorem dget_append_none (d₁ d₂ : JDict) (k : String) (h : dget d₁ k = none) :
    dget (d₁ ++ d₂) k = dget d₂ k := by
  induction d₁ with
  | nil => simp [dget]
  | cons p t ih =>
    obtain ⟨k0, v0⟩ := p
    by_cases h0 : k0 = k <;> simp_all [dget]

theorem dget_dsetdefault (d : JDict) (k k' : String) (v : JVal) :
    dget (dsetdefault d k v) k' = if k = k' then some ((dget d k).getD v) else dget d k' := by
  unfold dsetdefault
  cases hv : dget d k with
  | some w =>
    simp only [hv, Option.isSome_some, if_true, Option.getD_some]
    by_cases h : k = k'
    · subst h; simp [hv]
    · simp [h]
  | none =>
    simp only [hv, Option.isSome_none, Bool.false_eq_true, if_false, Option.getD_none]
    by_cases h : k = k'
    · subst h
      rw [dget_append_none _ _ _ hv]
      simp [dget]
    · cases hv' : dget d k' with
      | some w => rw [dget_append_some _ _ _ _ hv']; simp [h, hv']
      | none => rw [dget_append_none _ _ _ hv']; simp [dget, h, hv']

theorem dsetdefault_of_isSome (d : JDict) (k : String) (v : JVal) (h : (dget d k).isSome) :
    dsetdefault d k v = d := by simp [dsetdefault, h]

theorem pyOr_pyOr_right (a b : JVal) : pyOr (pyOr a b) b = pyOr a b := by
  unfold pyOr
  by_cases h : truthy a
  · simp [h]
  · simp [h, ite_self]

/-! Field-by-field characterization of `normalize_exec_response` on mapping
inputs. -/

theorem normalizeDict_ok (t : String) (d : JDict) :
    dget (normalizeDict t d) "ok" = some ((dget d "ok").getD (.jbool false)) := by
  simp only [normalizeDict]
  split <;> simp [dget_dset, dget_dsetdefault, dgetD]

theorem normalizeDict_action (t : String) (d : JDict) :
    dget (normalizeDict t d) "action" = some ((dget d "action").getD (.jstr t)) := by
  simp only [normalizeDict]
  split <;> cases h : dget d "action" <;>
    simp [dget_dset, dget_dsetdefault, dgetD, h, pyOr, truthy]

theorem normalizeDict_stdout (t : String) (d : JDict) :
    dget (normalizeDict t d) "stdout" = some (pyOr (dgetD d "stdout") (.jstr "")) := by
  simp only [normalizeDict]
  split <;> simp [dget_dset, dget_dsetdefault, dgetD]

theorem normalizeDict_stderr (t : String) (d : JDict) :
    dget (normalizeDict t d) "stderr" = some (pyOr (dgetD d "stderr") (.jstr "")) := by
  simp only [normalizeDict]
  split <;> simp [dget_dset, dget_dsetdefault, dgetD]

theorem normalizeDict_text (t : String) (d : JDict) :
    dget (normalizeDict t d) "text" =
      some (pyOr (dgetD d "text") (pyOr (dgetD d "stdout") (.jstr ""))) := by
  simp only [normalizeDict]
  split <;> simp [dget_dset, dget_dsetdefault, dgetD, pyOr_pyOr_right]

theorem normalizeDict_exit (t : String) (d : JDict) :
    dget (normalizeDict t d) "exit_code" = some (normExitValue d) := by
  simp only [normalizeDict, normExitValue]
  cases hec : dget d "exit_code" <;> split <;> simp_all [dget_dset, dget_dsetdefault, dgetD]

theorem normExitValue_ne_null (d : JDict) : normExitValue d ≠ .jnull := by
  simp only [normExitValue]
  split
  · split <;> simp
  · assumption

/-- Re-normalizing the result of normalizing a mapping changes nothing:
the second pass finds every field already present with a fixed-point value
and replaces each in place with itself. -/
theorem normalizeDict_idem (t : String) (d : JDict) :
    normalizeDict t (normalizeDict t d) = normalizeDict t d := by
  have hok := normalizeDict_ok t d
  have hact := normalizeDict_action t d
  have hso := normalizeDict_stdout t d
  have hse := normalizeDict_stderr t d
  have htx := normalizeDict_text t d
  have hec := normalizeDict_exit t d
  generalize hD : normalizeDict t d = D at hok hact hso hse htx hec
  have hgso : dgetD D "stdout" = pyOr (dgetD d "stdout") (.jstr "") := by
    simp [dgetD, hso]
  have hgse : dgetD D "stderr" = pyOr (dgetD d "stderr") (.jstr "") := by
    simp [dgetD, hse]
  have hgtx : dgetD D "text" = pyOr (dgetD d "text") (pyOr (dgetD d "stdout") (.jstr "")) := by
    simp [dgetD, htx]
  have s1 : dsetdefault D "ok" (.jbool false) = D :=
    dsetdefault_of_isSome _ _ _ (by simp [hok])
  have s2 : dsetdefault D "action" (pyOr (dgetD D "action") (.jstr t)) = D :=
    dsetdefault_of_isSome _ _ _ (by simp [hact])
  have s3 : dset D "stdout" (pyOr (dgetD D "stdout") (.jstr "")) = D := by
    rw [hgso, pyOr_pyOr_right]; exact dset_of_dget _ _ _ hso
  have s4 : dset D "stderr" (pyOr (dgetD D "stderr") (.jstr "")) = D := by
    rw [hgse, pyOr_pyOr_right]; exact dset_of_dget _ _ _ hse
  have s5 : dset D "text" (pyOr (dgetD D "text") (pyOr (dgetD D "stdout") (.jstr ""))) = D := by
    rw [hgtx, hgso, pyOr_pyOr_right, pyOr_pyOr_right]; exact dset_of_dget _ _ _ htx
  have s6 : dsetdefault D "exit_code" ((dget D "exit_code").getD ((dget D "code").getD .jnull)) = D :=
    dsetdefault_of_isSome _ _ _ (by simp [hec])
  conv_lhs => simp only [normalizeDict]
  rw [s1, s2, s3, s4, s5, s6]
  rw [if_neg (show ¬ (dgetD D "exit_code" = JVal.jnull) by
        simp [dgetD, hec, normExitValue_ne_null])]

/-- C5 (amended): the normalizer always leaves an `exit_code` key. On a
mapping that carried no exit code (`exit_code` and `code` both absent or
null) it is 0 exactly when `ok` is truthy and 1 otherwise; a carried
non-null exit code is preserved unchanged, consistent with `ok` or not; on
a non-mapping raw response the field is set to null (`None`), not to 1. -/
theorem c5_exit_status_amended (task : String) :
    (∀ v : JVal, ∃ d : JDict, normalize_exec_response task v = .jdict d ∧ (dget d "exit_code").isSome) ∧
    (∀ d : JDict,
      (dget d "exit_code" = none ∨ dget d "exit_code" = some .jnull) →
      (dget d "code" = none ∨ dget d "code" = some .jnull) →
      dget (normalizeDict task d) "exit_code" =
        some (if truthy ((dget d "ok").getD (.jbool false)) then .jint 0 else .jint 1)) ∧
    (∀ (d : JDict) (v : JVal), dget d "exit_code" = some v → v ≠ .jnull →
      dget (normalizeDict task d) "exit_code" = some v) ∧
    (∀ v : JVal, (∀ d : JDict, v ≠ .jdict d) →
      ∃ d : JDict, normalize_exec_response task v = .jdict d ∧ dget d "exit_code" = some .jnull) := by
  refine ⟨?_, ?_, ?_, ?_⟩
  · intro v
    cases v with
    | jdict d =>
      exact ⟨normalizeDict task d, rfl, by simp [normalizeDict_exit]⟩
    | jnull => exact ⟨_, rfl, by simp [dget]⟩
    | jbool b => exact ⟨_, rfl, by simp [dget]⟩
    | jint n => exact ⟨_, rfl, by simp [dget]⟩
    | jstr s => exact ⟨_, rfl, by simp [dget]⟩
    | jlist xs => exact ⟨_, rfl, by simp [dget]⟩
  · intro d hec hc
    rw [normalizeDict_exit]
    simp only [normExitValue]
    rcases hec with hec | hec <;> rcases hc with hc | hc <;> simp [hec, hc]
  · intro d v hv hne
    rw [normalizeDict_exit]
    simp only [normExitValue]
    simp [hv, hne]
  · intro v hv
    cases v with
    | jdict d => exact absurd rfl (hv d)
    | jnull => exact ⟨_, rfl, by simp [dget]⟩
    | jbool b => exact ⟨_, rfl, by simp [dget]⟩
    | jint n => exact ⟨_, rfl, by simp [dget]⟩
    | jstr s => exact ⟨_, rfl, by simp [dget]⟩
    | jlist xs => exact ⟨_, rfl, by simp [dget]⟩

/-- C5 witness: a mapping with `ok` true and no exit code normalizes to
`exit_code` 0, at the concrete input `{"ok": True}`. -/
theorem c5_exit_status_amended_witness :
    dget (normalizeDict "ssh: healthz" [("ok", .jbool true)]) "exit_code" = some (.jint 0) := by
  have h := (c5_exit_status_amended "ssh: healthz").2.1 [("ok", .jbool true)]
    (Or.inl (by decide)) (Or.inl (by decide))
  simpa using h

/-- C5 counterexample: a non-mapping raw response (here the string
`"boom"`) is normalized with `exit_code` null, not the claimed default 1
(agent_brain.py line 254 hard-codes `"exit_code": None`). -/
theorem c5_counterexample :
    normalize_exec_response "ssh: healthz" (.jstr "boom") =
      .jdict [("ok", .jbool false), ("action", .jstr "ssh: healthz"), ("stdout", .jstr ""),
              ("stderr", .jstr ""), ("text", .jstr "boom"), ("exit_code", .jnull)] ∧
    JVal.jnull ≠ JVal.jint 1 := by
  decide

/-- C6 (amended): the normalizer is idempotent on every mapping input —
re-normalizing `normalize_exec_response task (jdict d)` returns it
unchanged. (It is not idempotent on its non-mapping wrapper outputs, whose
null exit code a second pass rewrites; see the counterexample.) -/
theorem c6_normalize_idempotent_on_mappings (task : String) (d : JDict) :
    normalize_exec_response task (normalize_exec_response task (.jdict d)) =
      normalize_exec_response task (.jdict d) := by
  show JVal.jdict (normalizeDict task (normalizeDict task d)) = .jdict (normalizeDict task d)
  rw [normalizeDict_idem]

/-- C6 counterexample: the fully-populated result of normalizing the
non-mapping `"boom"` (it has all of ok, action, stdout, stderr, text and
exit_code exactly as the normalizer produced them) is changed by a second
normalization: its null exit_code becomes 1. -/
theorem c6_counterexample :
    normalize_exec_response "ssh: healthz" (normalize_exec_response "ssh: healthz" (.jstr "boom")) ≠
      normalize_exec_response "ssh: healthz" (.jstr "boom") := by
  decide

/-! C8: integer-typed argument validation. -/

theorem c8_red (mn mx : Int) (w : JVal) :
    validate_handv2_args "a" (.jdict [("k", w)]) (some (intBoundManifest "a" "k" mn mx)) =
      .ok (checkArgsLoop
            [("k", .jdict [("type", .jstr "integer"), ("minimum", .jint mn), ("maximum", .jint mx)])]
            [("k", w)]) := rfl

theorem c8_loop_int (mn mx n : Int) :
    checkArgsLoop
        [("k", .jdict [("type", .jstr "integer"), ("minimum", .jint mn), ("maximum", .jint mx)])]
        [("k", .jint n)] =
      (if n < mn then some ("arg 'k' must be >= " ++ toString mn)
       else if mx < n then some ("arg 'k' must be <= " ++ toString mx)
       else none) := by
  simp [checkArgsLoop, dget, dgetD, JVal.isPyInt, JVal.pyIntVal, pyStr, pyRepr]

theorem c8_loop_bool (mn mx : Int) (b : Bool) :
    checkArgsLoop
        [("k", .jdict [("type", .jstr "integer"), ("minimum", .jint mn), ("maximum", .jint mx)])]
        [("k", .jbool b)] =
      (if (if b then (1 : Int) else 0) < mn then some ("arg 'k' must be >= " ++ toString mn)
       else if mx < (if b then (1 : Int) else 0) then some ("arg 'k' must be <= " ++ toString mx)
       else none) := by
  cases b <;> simp [checkArgsLoop, dget, dgetD, JVal.isPyInt, JVal.pyIntVal, pyStr, pyRepr]

theorem c8_loop_other (mn mx : Int) (v : JVal) (hv : v.isPyInt = false) :
    checkArgsLoop
        [("k", .jdict [("type", .jstr "integer"), ("minimum", .jint mn), ("maximum", .jint mx)])]
        [("k", v)] =
      some ("arg 'k' must be integer") := by
  cases v <;> simp_all [checkArgsLoop, dget, dgetD, JVal.isPyInt]

/-- C8 (amended): for an argument declared `integer` with bounds
`[minimum, maximum]`, validation passes exactly the values CPython counts
as `int` instances — integers and booleans (False as 0, True as 1) — whose
numeric value lies within the bounds inclusive; strings and all other
values are rejected with the `must be integer` message, and out-of-bounds
integers with the bound-naming message (boundary values accepted). The
claim's "rejects boolean values" fails: `isinstance(v, int)` is true for
CPython booleans (agent_brain.py line 694). -/
theorem c8_integer_bounds_amended (v : JVal) (mn mx : Int) :
    (validate_handv2_args "a" (.jdict [("k", v)]) (some (intBoundManifest "a" "k" mn mx)) = .ok none ↔
      (v.isPyInt = true ∧ mn ≤ v.pyIntVal ∧ v.pyIntVal ≤ mx)) ∧
    (∀ s : String,
      validate_handv2_args "a" (.jdict [("k", .jstr s)]) (some (intBoundManifest "a" "k" mn mx)) =
        .ok (some "arg 'k' must be integer")) ∧
    (∀ n : Int, n < mn →
      validate_handv2_args "a" (.jdict [("k", .jint n)]) (some (intBoundManifest "a" "k" mn mx)) =
        .ok (some ("arg 'k' must be >= " ++ toString mn))) ∧
    (∀ n : Int, mn ≤ n → mx < n →
      validate_handv2_args "a" (.jdict [("k", .jint n)]) (some (intBoundManifest "a" "k" mn mx)) =
        .ok (some ("arg 'k' must be <= " ++ toString mx))) := by
  refine ⟨?_, ?_, ?_, ?_⟩
  · rw [c8_red]
    cases v with
    | jint n =>
      rw [c8_loop_int]
      simp only [JVal.isPyInt, JVal.pyIntVal, true_and]
      split_ifs <;> simp <;> omega
    | jbool b =>
      rw [c8_loop_bool]
      cases b <;> simp only [JVal.isPyInt, JVal.pyIntVal, true_and] <;>
        split_ifs <;> simp <;> omega
    | jnull => simp [c8_loop_other, JVal.isPyInt]
    | jstr s => simp [c8_loop_other, JVal.isPyInt]
    | jlist xs => simp [c8_loop_other, JVal.isPyInt]
    | jdict kvs => simp [c8_loop_other, JVal.isPyInt]
  · intro s
    rw [c8_red]
    simp [c8_loop_other, JVal.isPyInt]
  · intro n h
    rw [c8_red, c8_loop_int]
    simp [h]
  · intro n h1 h2
    rw [c8_red, c8_loop_int]
    rw [if_neg (by omega), if_pos h2]

/-- C8 witness: at the declared bound [0, 3] the boundary value 3 is
accepted and 4 is rejected naming the bound. -/
theorem c8_integer_bounds_amended_witness :
    validate_handv2_args "a" (.jdict [("k", .jint 3)]) (some (intBoundManifest "a" "k" 0 3)) =
      .ok none ∧
    validate_handv2_args "a" (.jdict [("k", .jint 4)]) (some (intBoundManifest "a" "k" 0 3)) =
      .ok (some ("arg 'k' must be <= " ++ toString (3 : Int))) := by
  constructor
  · exact (c8_integer_bounds_amended (.jint 3) 0 3).1.mpr (by decide)
  · exact (c8_integer_bounds_amended (.jint 3) 0 3).2.2.2 4 (by decide) (by decide)

/-- C8 counterexample: the boolean `True` passes validation for an
argument declared `integer` with bounds [1, 500] — the claim says booleans
are rejected, but CPython's `isinstance(True, int)` holds and `True`
compares as 1 against the bounds. -/
theorem c8_counterexample :
    validate_handv2_args "caddy_logs" (.jdict [("tail", .jbool true)])
      (some (intBoundManifest "caddy_logs" "tail" 1 500)) = .ok none := by
  decide

/-! C3: the n8n workflow-update write gate. -/

theorem dget_map_keys (l : List String) (f : String → JVal) (k : String) (h : k ∉ l) :
    dget (l.map (fun x => (x, f x))) k = none := by
  induction l with
  | nil => simp [dget]
  | cons x t ih =>
    simp only [List.mem_cons, not_or] at h
    simp [dget, ih h.2, show x ≠ k from fun hh => h.1 hh.symm]

theorem dset_ne_nil (d : JDict) (k : String) (v : JVal) : dset d k v ≠ [] := by
  cases d with
  | nil => simp [dset]
  | cons p t =>
    obtain ⟨k0, v0⟩ := p
    by_cases h : k0 = k <;> simp [dset, h]

theorem dhas_ne_nil (d : JDict) (k : String) (h : dhas d k = true) : d ≠ [] := by
  cases d with
  | nil => simp [dhas, dget] at h
  | cons p t => simp

theorem c3_part3 (allow : List String)
    (rf : String → Except String JVal) (req : String → String → JVal → JVal) (p : JDict)
    (w : String) (wf : JDict) (hempty : allow = []) (hwne : w ≠ "")
    (hwid : pyOr (dgetD p "workflow_id") (dgetD p "id") = .jstr w)
    (hwf : pyOr (dgetD p "workflow") (dgetD p "data") = .jdict wf) (hwfne : wf ≠ []) :
    ∃ body : JVal,
      n8n_workflows_update true allow rf req p = req "PUT" ("/workflows/" ++ w) body := by
  subst hempty
  simp only [n8n_workflows_update]
  rw [hwid, hwf]
  rw [if_neg (by simp)]
  rw [if_neg (by simp [truthy, hwne])]
  rw [if_neg (by simp)]
  rw [if_neg (by simp [hwfne])]
  simp only [pyStr]
  split
  · rw [if_neg (by simp [dset_ne_nil])]
    rw [if_neg (by simp [dhas, dget_dset, dget_map_keys])]
    exact ⟨_, rfl⟩
  · next hcond =>
    push_neg at hcond
    rw [if_neg (by simp [List.isEmpty_iff, dhas_ne_nil _ _ hcond.1])]
    rw [if_neg (by simp [dhas, dget_map_keys])]
    exact ⟨_, rfl⟩

/-- C3 (amended): with the write-enable flag unset every update fails with
the writes-disabled reason, before any other check. With the flag set and a
NON-EMPTY configured allow-list, an id not in the list fails with the
distinct reason naming the id. With an EMPTY allow-list the id check is
skipped entirely (`if allow and wid not in allow`, line 507) and the update
proceeds to the PUT for any id. -/
theorem c3_write_gate_amended (allowWrite : Bool) (allow : List String)
    (rf : String → Except String JVal) (req : String → String → JVal → JVal) (p : JDict) :
    (allowWrite = false →
      n8n_workflows_update allowWrite allow rf req p =
        n8nErr "n8n: workflows_update" "WRITE disabled (set N8N_ALLOW_WRITE=1)") ∧
    (∀ w : String, allowWrite = true → allow ≠ [] → w ∉ allow → w ≠ "" →
      pyOr (dgetD p "workflow_id") (dgetD p "id") = .jstr w →
      n8n_workflows_update allowWrite allow rf req p =
        n8nErr "n8n: workflows_update" ("workflow_id not in allowlist: " ++ w)) ∧
    (∀ (w : String) (wf : JDict), allowWrite = true → allow = [] → w ≠ "" →
      pyOr (dgetD p "workflow_id") (dgetD p "id") = .jstr w →
      pyOr (dgetD p "workflow") (dgetD p "data") = .jdict wf → wf ≠ [] →
      ∃ body : JVal,
        n8n_workflows_update allowWrite allow rf req p = req "PUT" ("/workflows/" ++ w) body) := by
  refine ⟨?_, ?_, ?_⟩
  · intro h
    subst h
    simp [n8n_workflows_update]
  · intro w hw hne hnotin hwne hwid
    subst hw
    simp only [n8n_workflows_update]
    rw [hwid]
    rw [if_neg (by simp)]
    rw [if_neg (by simp [truthy, hwne])]
    rw [if_pos (by simp [hne, jvalInStrList, hnotin])]
    simp [pyStr]
  · intro w wf hw hempty hwne hwid hwf hwfne
    subst hw
    exact c3_part3 allow rf req p w wf hempty hwne hwid hwf hwfne

/-- C3 witness: the three gate outcomes at concrete inputs — flag unset,
flag set with id outside a non-empty allow-list, and flag set with an
empty allow-list (the PUT proceeds). -/
theorem c3_write_gate_amended_witness :
    (n8n_workflows_update false ["wA"] (fun _ => .error "no file")
        (fun method path _body => .jdict [("method", .jstr method), ("path", .jstr path)])
        [("workflow_id", .jstr "w7")] =
      n8nErr "n8n: workflows_update" "WRITE disabled (set N8N_ALLOW_WRITE=1)") ∧
    (n8n_workflows_update true ["wA"] (fun _ => .error "no file")
        (fun method path _body => .jdict [("method", .jstr method), ("path", .jstr path)])
        [("workflow_id", .jstr "w7")] =
      n8nErr "n8n: workflows_update" ("workflow_id not in allowlist: " ++ "w7")) ∧
    (∃ body : JVal,
      n8n_workflows_update true [] (fun _ => .error "no file")
        (fun method path _body => .jdict [("method", .jstr method), ("path", .jstr path)])
        [("workflow_id", .jstr "w7"), ("workflow", .jdict [("name", .jstr "wf")])] =
      (fun method path _body => JVal.jdict [("method", .jstr method), ("path", .jstr path)])
        "PUT" ("/workflows/" ++ "w7") body) := by
  refine ⟨?_, ?_, ?_⟩
  · exact (c3_write_gate_amended false ["wA"] _ _ _).1 rfl
  · exact (c3_write_gate_amended true ["wA"] _ _ _).2.1 "w7" rfl (by decide) (by decide)
      (by decide) (by decide)
  · exact (c3_write_gate_amended true [] _ _ _).2.2 "w7" [("name", .jstr "wf")] rfl rfl
      (by decide) (by decide) (by decide) (by decide)

/-- C3 counterexample: with the write flag set and the configured
allow-list EMPTY, an update for id `w7` — an id that does not appear in
the allow-list — proceeds to the PUT instead of failing with the
not-allow-listed reason, contradicting the claim that the update proceeds
only for allow-listed ids. -/
theorem c3_counterexample :
    n8n_workflows_update true []
      (fun _ => .error "no file")
      (fun method path _body => .jdict [("ok", .jbool true), ("method", .jstr method), ("path", .jstr path)])
      [("workflow_id", .jstr "w7"), ("workflow", .jdict [("name", .jstr "wf")])] =
      .jdict [("ok", .jbool true), ("method", .jstr "PUT"), ("path", .jstr "/workflows/w7")] := by
  decide

/-! C2: the primary-to-fallback transport routing of call_agent_exec. -/

theorem fallback_actions_mem_ne (raw x : String) (h : x ∈ _ssh_fallback_actions raw) : x ≠ "" := by
  simp only [_ssh_fallback_actions, List.mem_filter] at h
  simpa using h.2

theorem fallback_marker (jp : String → Except String JVal) (rid : String) (o : SshOutcome)
    (params : JVal) :
    ∃ d : JDict, _call_handv2_via_ssh jp rid o params = .jdict d ∧
      dget d "_fallback" = some (.jstr "ssh") := by
  unfold _call_handv2_via_ssh
  cases o with
  | exn m =>
    dsimp only
    refine ⟨_, rfl, ?_⟩
    simp [sshFallbackErrDict, dget]
  | ran rc so se =>
    dsimp only
    by_cases h1 : rc ≠ 0 ∧ pyTrim so = ""
    · rw [if_pos h1]
      refine ⟨_, rfl, ?_⟩
      simp [sshFallbackErrDict, dget]
    · rw [if_neg h1]
      generalize (if pyTrim so = "" then Except.ok (JVal.jdict []) else jp so) = r
      cases r with
      | error e =>
        refine ⟨_, rfl, ?_⟩
        simp [sshFallbackErrDict, dget]
      | ok v =>
        cases v with
        | jdict d =>
          refine ⟨_, rfl, ?_⟩
          simp [dget_dset]
        | jnull =>
          refine ⟨_, rfl, ?_⟩
          simp [sshFallbackErrDict, dget]
        | jbool b =>
          refine ⟨_, rfl, ?_⟩
          simp [sshFallbackErrDict, dget]
        | jint n =>
          refine ⟨_, rfl, ?_⟩
          simp [sshFallbackErrDict, dget]
        | jstr s2 =>
          refine ⟨_, rfl, ?_⟩
          simp [sshFallbackErrDict, dget]
        | jlist xs =>
          refine ⟨_, rfl, ?_⟩
          simp [sshFallbackErrDict, dget]

/-- C2: whenever the primary HTTP call fails (connection error or timeout
exception, non-2xx status, blank body, or unparsable body — exactly the
cases primaryFailure classifies), an `ssh: run` call whose action is in the
configured fallback allow-list is answered by exactly one invocation of the
SSH fallback channel, and every result that channel can produce carries the
`_fallback = "ssh"` marker; an action outside the allow-list gets no
fallback, only the failed result with the failure message in `stderr` and
`text`. The third conjunct fixes the default allow-list. -/
theorem c2_fallback_routing (jp : String → Except String JVal) (primary : HttpOutcome)
    (ssh : SshOutcome) (rid recoveryRaw : String) (p : JDict) (m : String)
    (hfail : primaryFailure jp primary = some m) :
    (sshRunFallbackAction p ∈ _ssh_fallback_actions recoveryRaw →
      call_agent_exec jp primary ssh rid recoveryRaw "ssh: run" (some (.jdict p)) =
        (_call_handv2_via_ssh jp rid ssh (.jdict p), 1) ∧
      ∃ d : JDict, _call_handv2_via_ssh jp rid ssh (.jdict p) = .jdict d ∧
        dget d "_fallback" = some (.jstr "ssh")) ∧
    (sshRunFallbackAction p ∉ _ssh_fallback_actions recoveryRaw →
      call_agent_exec jp primary ssh rid recoveryRaw "ssh: run" (some (.jdict p)) =
        (.jdict [("ok", .jbool false), ("action", .jstr "ssh: run"), ("stdout", .jstr ""),
                 ("stderr", .jstr ("agent-exec call failed: " ++ m)),
                 ("text", .jstr ("agent-exec call failed: " ++ m)), ("exit_code", .jint 1)], 0)) ∧
    _ssh_fallback_actions DEFAULT_RECOVERY_SSH_ACTIONS =
      ["compose_up", "compose_restart", "compose_ps", "compose_logs"] := by
  refine ⟨?_, ?_, by decide⟩
  · intro hmem
    constructor
    · unfold call_agent_exec
      simp only [hfail]
      have hcond : pyTrim (pyStr ((dget p "action").getD (JVal.jstr ""))) ≠ "" ∧
          pyTrim (pyStr ((dget p "action").getD (JVal.jstr ""))) ∈
            _ssh_fallback_actions recoveryRaw :=
        ⟨fallback_actions_mem_ne _ _ hmem, hmem⟩
      rw [if_pos hcond]
      simp
    · exact fallback_marker jp rid ssh (.jdict p)
  · intro hmem
    unfold call_agent_exec
    simp only [hfail]
    have hcond : ¬ (pyTrim (pyStr ((dget p "action").getD (JVal.jstr ""))) ≠ "" ∧
        pyTrim (pyStr ((dget p "action").getD (JVal.jstr ""))) ∈
          _ssh_fallback_actions recoveryRaw) :=
      fun hc => hmem hc.2
    rw [if_neg hcond]
    simp


/-- C2 witness: a connection error on the primary, action
`compose_restart` (in the default allow-list) → one fallback call whose
result carries the marker; action `reboot` (not in the list) → the failed
result, no fallback. -/
theorem c2_fallback_routing_witness :
    call_agent_exec (fun _ => .error "Expecting value") (.exn "connection error") (.ran 0 "" "")
        "rid7" DEFAULT_RECOVERY_SSH_ACTIONS "ssh: run"
        (some (.jdict [("action", .jstr "compose_restart")])) =
      (.jdict [("request_id", .jstr "rid7"), ("_fallback", .jstr "ssh")], 1) ∧
    call_agent_exec (fun _ => .error "Expecting value") (.exn "connection error") (.ran 0 "" "")
        "rid7" DEFAULT_RECOVERY_SSH_ACTIONS "ssh: run"
        (some (.jdict [("action", .jstr "reboot")])) =
      (.jdict [("ok", .jbool false), ("action", .jstr "ssh: run"), ("stdout", .jstr ""),
               ("stderr", .jstr ("agent-exec call failed: " ++ "connection error")),
               ("text", .jstr ("agent-exec call failed: " ++ "connection error")),
               ("exit_code", .jint 1)], 0) := by
  constructor
  · have h := (c2_fallback_routing (fun _ => .error "Expecting value") (.exn "connection error")
      (.ran 0 "" "") "rid7" DEFAULT_RECOVERY_SSH_ACTIONS [("action", .jstr "compose_restart")]
      "connection error" rfl).1 (by decide)
    rw [h.1]
    decide
  · exact (c2_fallback_routing (fun _ => .error "Expecting value") (.exn "connection error")
      (.ran 0 "" "") "rid7" DEFAULT_RECOVERY_SSH_ACTIONS [("action", .jstr "reboot")]
      "connection error" rfl).2.1 (by decide)

/-! C4: confirmation tokens inside the args mapping. -/

theorem dget_ne_nil (d : JDict) (k : String) (v : JVal) (h : dget d k = some v) : d ≠ [] := by
  cases d with
  | nil => simp [dget] at h
  | cons p t => simp

theorem hardenCheck_cons_confirm (hv2 : List String) (a : JVal) (rest : List JVal)
    (ha : confirmInsideArgs a = true) :
    hardenCheck hv2 (a :: rest) = .error "confirm must be params.confirm (not inside params.args)" := by
  cases a with
  | jdict ad =>
    simp only [confirmInsideArgs, Bool.and_eq_true, decide_eq_true_eq] at ha
    obtain ⟨htask, hrest⟩ := ha
    rcases hp : pyOr (dgetD ad "params") (.jdict []) with _ | _ | _ | _ | _ | pd
    all_goals simp only [hp] at hrest
    case jdict =>
      rcases hq : pyOr (dgetD pd "args") (.jdict []) with _ | _ | _ | _ | _ | argsD
      all_goals simp only [hq] at hrest
      case jdict =>
        simp only [hardenCheck, htask, if_pos, hp, hq]
        simp [hrest]
      all_goals simp at hrest
    all_goals simp at hrest
  | jnull => simp [confirmInsideArgs] at ha
  | jbool b => simp [confirmInsideArgs] at ha
  | jint n => simp [confirmInsideArgs] at ha
  | jstr s => simp [confirmInsideArgs] at ha
  | jlist xs => simp [confirmInsideArgs] at ha


theorem hardenCheck_cons_ok (hv2 : List String) (a : JVal) (rest : List JVal)
    (h : hardenCheck hv2 (a :: rest) = .ok ()) : hardenCheck hv2 rest = .ok () := by
  cases a with
  | jdict ad =>
    simp only [hardenCheck] at h
    split at h
    · rcases hp : pyOr (dgetD ad "params") (.jdict []) with _ | _ | _ | _ | _ | pd
      all_goals simp only [hp] at h
      case jdict =>
        rcases hq : pyOr (dgetD pd "args") (.jdict []) with _ | _ | _ | _ | _ | argsD
        all_goals simp only [hq] at h
        case jdict =>
          split at h
          · exact absurd h (by simp)
          · split at h
            · exact absurd h (by simp)
            · exact h
        all_goals
          split at h
          · exact absurd h (by simp)
          · exact h
      all_goals exact absurd h (by simp)
    · exact h
  | jnull => exact absurd h (by simp [hardenCheck])
  | jbool b => exact absurd h (by simp [hardenCheck])
  | jint n => exact absurd h (by simp [hardenCheck])
  | jstr s => exact absurd h (by simp [hardenCheck])
  | jlist xs => exact absurd h (by simp [hardenCheck])

theorem hardenCheck_ok_no_confirm (hv2 : List String) (l : List JVal)
    (h : hardenCheck hv2 l = .ok ()) : ∀ a ∈ l, confirmInsideArgs a = false := by
  induction l with
  | nil => intro a ha; simp at ha
  | cons x rest ih =>
    intro a ha
    rcases List.mem_cons.mp ha with hax | har
    · subst hax
      by_cases hca : confirmInsideArgs a = true
      · rw [hardenCheck_cons_confirm hv2 a rest hca] at h
        exact absurd h (by simp)
      · simpa using hca
    · exact ih (hardenCheck_cons_ok hv2 x rest h) a har


theorem c4_planned (hv2Allowed : List String) (pd : JDict) (l : List JVal)
    (hact : dget pd "actions" = some (.jlist l))
    (hoff : ∃ a ∈ l, confirmInsideArgs a = true) :
    ∃ e, validate_plan hv2Allowed (.jdict pd) = .error e := by
  obtain ⟨a, hal, hca⟩ := hoff
  have hlne : ¬ l.isEmpty := by
    cases l with
    | nil => simp at hal
    | cons x t => simp
  have hpy : pyOr ((dget pd "actions").getD (.jlist [])) (.jlist []) = .jlist l := by
    rw [hact]
    simp [pyOr, truthy, hlne]
  simp only [validate_plan, hpy]
  cases hh2 : hardenCheck hv2Allowed l with
  | error e => exact ⟨e, by simp⟩
  | ok u =>
    cases u
    have hno := hardenCheck_ok_no_confirm hv2Allowed l hh2 a hal
    rw [hca] at hno
    exact absurd hno (by simp)

theorem defaults_foldl_preserves (propsD : List (String × JVal)) (args : JDict) (k : String)
    (v : JVal) (h : dget args k = some v) :
    dget (propsD.foldl
      (fun a kv =>
        match kv.2 with
        | .jdict specD =>
          if ¬ dhas a kv.1 ∧ dhas specD "default" then dset a kv.1 (dgetD specD "default") else a
        | _ => a)
      args) k = some v := by
  induction propsD generalizing args with
  | nil => simpa using h
  | cons kv rest ih =>
    simp only [List.foldl_cons]
    apply ih
    cases hv2 : kv.2 with
    | jdict specD =>
      simp only [hv2]
      by_cases hc : ¬ dhas args kv.1 ∧ dhas specD "default"
      · rw [if_pos hc]
        have hk : kv.1 ≠ k := by
          intro hh
          subst hh
          exact hc.1 (by simp [dhas, h])
        rw [dget_dset, if_neg hk]
        exact h
      · rw [if_neg hc]
        exact h
    | jnull => simp only [hv2]; exact h
    | jbool b => simp only [hv2]; exact h
    | jint n => simp only [hv2]; exact h
    | jstr s => simp only [hv2]; exact h
    | jlist xs => simp only [hv2]; exact h


theorem applyManifestDefaults_preserves (idx : JDict) (action : String) (args : JDict)
    (k : String) (v : JVal) (h : dget args k = some v) :
    dget (applyManifestDefaults idx action args) k = some v := by
  simp only [applyManifestDefaults]
  split
  · exact defaults_foldl_preserves _ _ _ _ h
  · exact h

theorem c4_direct (manifests : Option (List JVal)) (ce : JDict → JVal) (p0 : JDict)
    (args : JDict) (c : JVal) (sent : JDict) (resp : JVal)
    (hargs : dget p0 "args" = some (.jdict args))
    (hc : dget args "confirm" = some c)
    (hdisp : direct_ssh_run manifests ce p0 = .ok (.dispatched sent resp)) :
    ∃ argsSent : JDict, dget sent "args" = some (.jdict argsSent) ∧
      dget argsSent "confirm" = some c := by
  have hne : args ≠ [] := dget_ne_nil _ _ _ hc
  have htr : truthy (dgetD p0 "args") = true := by
    simp [dgetD, hargs, truthy, hne]
  have hpyor : pyOr (dgetD p0 "args") (.jdict []) = .jdict args := by
    simp [pyOr, truthy, dgetD, hargs, hne]
  simp only [direct_ssh_run, hpyor, htr, if_true] at hdisp
  split at hdisp
  · exact absurd hdisp (by simp)
  · exact absurd hdisp (by simp)
  · simp only [Except.ok.injEq, DirectResult.dispatched.injEq] at hdisp
    obtain ⟨hsent, hresp⟩ := hdisp
    subst hsent
    refine ⟨applyManifestDefaults (index_handv2_manifests manifests)
      (pyTrim (pyStr ((dget p0 "action").getD (JVal.jstr "")))) args, ?_, ?_⟩
    · rw [dget_dset]
      simp
    · exact applyManifestDefaults_preserves _ _ _ _ _ hc


/-- C4 (amended): on the LLM-planned path a confirm key inside the args
mapping makes `validate_plan` raise before any dispatch; the direct CLI
path, by contrast, has no confirm-placement check — whenever it dispatches,
the params it sends still carry the confirm key inside args (manifest
defaults only add missing keys). The claim's "on both paths" fails: the
direct path never rejects confirm-inside-args (see the counterexample). -/
theorem c4_confirm_placement_amended :
    (∀ (hv2Allowed : List String) (pd : JDict) (l : List JVal),
      dget pd "actions" = some (.jlist l) → (∃ a ∈ l, confirmInsideArgs a = true) →
      ∃ e, validate_plan hv2Allowed (.jdict pd) = .error e) ∧
    (∀ (manifests : Option (List JVal)) (ce : JDict → JVal) (p0 args : JDict) (c : JVal)
        (sent : JDict) (resp : JVal),
      dget p0 "args" = some (.jdict args) → dget args "confirm" = some c →
      direct_ssh_run manifests ce p0 = .ok (.dispatched sent resp) →
      ∃ argsSent : JDict, dget sent "args" = some (.jdict argsSent) ∧
        dget argsSent "confirm" = some c) :=
  ⟨fun hv2 pd l hact hoff => c4_planned hv2 pd l hact hoff,
   fun m ce p0 args c sent resp h1 h2 h3 => c4_direct m ce p0 args c sent resp h1 h2 h3⟩

/-- C4 witness: a plan whose single `ssh: run` action hides confirm inside
args fails validation, and the direct path dispatches the same params with
the confirm key still inside args. -/
theorem c4_confirm_placement_amended_witness :
    (∃ e, validate_plan []
      (.jdict [("actions", .jlist [.jdict [("task", .jstr "ssh: run"),
        ("params", .jdict [("action", .jstr "foo"),
          ("args", .jdict [("confirm", .jstr "x")])])]])]) = Except.error e) ∧
    (∃ argsSent : JDict,
      dget ([("action", .jstr "foo"), ("mode", .jstr "check"),
             ("args", .jdict [("confirm", .jstr "x")])] : JDict) "args" =
        some (.jdict argsSent) ∧
      dget argsSent "confirm" = some (.jstr "x")) := by
  constructor
  · exact c4_confirm_placement_amended.1 []
      [("actions", .jlist [.jdict [("task", .jstr "ssh: run"),
        ("params", .jdict [("action", .jstr "foo"),
          ("args", .jdict [("confirm", .jstr "x")])])]])]
      [.jdict [("task", .jstr "ssh: run"),
        ("params", .jdict [("action", .jstr "foo"),
          ("args", .jdict [("confirm", .jstr "x")])])]]
      (by decide)
      ⟨.jdict [("task", .jstr "ssh: run"),
        ("params", .jdict [("action", .jstr "foo"),
          ("args", .jdict [("confirm", .jstr "x")])])], by decide, by decide⟩
  · exact c4_confirm_placement_amended.2 none (fun _ => .jdict [])
      [("action", .jstr "foo"), ("mode", .jstr "check"), ("args", .jdict [("confirm", .jstr "x")])]
      [("confirm", .jstr "x")] (.jstr "x")
      [("action", .jstr "foo"), ("mode", .jstr "check"), ("args", .jdict [("confirm", .jstr "x")])]
      (.jdict [("ok", .jbool false), ("action", .jstr "ssh: run"), ("stdout", .jstr ""),
               ("stderr", .jstr ""), ("text", .jstr ""), ("exit_code", .jint 1)])
      (by decide) (by decide) (by decide)

/-- C4 counterexample: the direct CLI command
`ssh: run action=foo mode=check args={"confirm":"tok"}` parses with the
confirm token inside args, passes validation (no manifests), and is
dispatched — the claim says it is rejected before dispatch on the direct
path too, but no such check exists there. -/
theorem c4_counterexample :
    _parse_direct_ssh_run_rest
        (fun s => if s = "\x7b\x22confirm\x22:\x22tok\x22\x7d"
                  then .ok (.jdict [("confirm", .jstr "tok")]) else .error "Expecting value")
        "action=foo mode=check args=\x7b\x22confirm\x22:\x22tok\x22\x7d" =
      some [("action", .jstr "foo"), ("mode", .jstr "check"),
            ("args", .jdict [("confirm", .jstr "tok")])] ∧
    direct_ssh_run none (fun _ => .jdict [("ok", .jbool true)])
        [("action", .jstr "foo"), ("mode", .jstr "check"),
         ("args", .jdict [("confirm", .jstr "tok")])] =
      .ok (.dispatched
        [("action", .jstr "foo"), ("mode", .jstr "check"),
         ("args", .jdict [("confirm", .jstr "tok")])]
        (.jdict [("ok", .jbool true), ("action", .jstr "ssh: run"), ("stdout", .jstr ""),
                 ("stderr", .jstr ""), ("text", .jstr ""), ("exit_code", .jint 0)])) := by
  decide


end AgentHub

namespace AgentHub

theorem pyStartsWith_append_self (h s : String) : pyStartsWith (h ++ s) h = true := by
  unfold pyStartsWith
  rw [show (h ++ s).toList = h.toList ++ s.toList by simp [String.toList]]
  rw [List.isPrefixOf_iff_prefix]
  exact List.prefix_append _ _

theorem pyStartsWith_append_ne (h1 h2 s : String) (k : Nat)
    (hk1 : k ≤ h1.toList.length) (hk2 : k ≤ h2.toList.length)
    (hne : h1.toList.take k ≠ h2.toList.take k) :
    pyStartsWith (h1 ++ s) h2 = false := by
  unfold pyStartsWith
  rw [show (h1 ++ s).toList = h1.toList ++ s.toList by simp [String.toList]]
  rw [Bool.eq_false_iff, Ne, List.isPrefixOf_iff_prefix]
  intro hc
  have heq := List.prefix_iff_eq_take.mp hc
  apply hne
  have h5 : h2.toList.take k = (h1.toList ++ s.toList).take k := by
    conv_lhs => rw [heq]
    rw [List.take_take]
    congr 1
    omega
  rw [List.take_append_of_le_length hk1] at h5
  exact h5.symm

theorem section_body (hdr x : String) :
    ((hdr ++ x).toList.drop (pyLenStr hdr)).asString = x := by
  rw [show (hdr ++ x).toList = hdr.toList ++ x.toList by simp [String.toList]]
  rw [show pyLenStr hdr = hdr.toList.length from rfl]
  rw [List.drop_left]
  rfl

theorem needsSave_true (task so se tx : String)
    (hsave : task = "ssh: caddy_logs" ∨ pyLenStr so > MAX_KEEP ∨ pyLenStr se > MAX_KEEP ∨
      pyLenStr tx > MAX_KEEP) :
    needsSaveCheck task (.jstr so) (.jstr se) (.jstr tx) = some true := by
  unfold needsSaveCheck
  simp only [pyLen]
  rcases hsave with h | h | h | h <;> split_ifs <;> simp_all

theorem sanitizeParts_str (so se tx : String) :
    sanitizeParts (.jstr so) (.jstr se) (.jstr tx) =
      some ((if so = "" then [] else ["=== STDOUT ===\n" ++ so]) ++
            (if se = "" then [] else ["=== STDERR ===\n" ++ se]) ++
            (if tx ≠ "" ∧ tx ≠ so ∧ tx ≠ se then ["=== TEXT ===\n" ++ tx] else [])) := by
  unfold sanitizeParts
  by_cases h1 : so = "" <;> by_cases h2 : se = "" <;>
    by_cases h3 : tx ≠ "" ∧ JVal.jstr tx ≠ JVal.jstr so ∧ JVal.jstr tx ≠ JVal.jstr se <;>
    simp_all [truthy] <;> split_ifs <;> simp_all

end AgentHub

namespace AgentHub

theorem _truncate_long (s : String) (h : pyLenStr s > MAX_KEEP) :
    _truncate s = pySlice s MAX_KEEP ++ "\n...[truncated]...\n" := by
  unfold _truncate
  have h1 : s ≠ "" := by
    intro hs
    subst hs
    simp [pyLenStr, MAX_KEEP] at h
  rw [if_neg h1, if_neg (by omega)]

theorem sanitizeOut2_saved (ts task : String) (d : JDict) (so se tx : String) :
    dget (sanitizeOut2 ts task d so se tx) "_saved_to" = some (.jstr (artifactName ts task)) := by
  simp only [sanitizeOut2]
  rw [dget_dset]
  simp

theorem sanitizeOut2_stdout (ts task : String) (d : JDict) (so se tx : String) (h : so ≠ "") :
    dget (sanitizeOut2 ts task d so se tx) "stdout" = some (.jstr (_truncate so)) := by
  simp only [sanitizeOut2]
  split_ifs <;> simp_all [dget_dset]

theorem sanitizeOut2_stderr (ts task : String) (d : JDict) (so se tx : String) (h : se ≠ "") :
    dget (sanitizeOut2 ts task d so se tx) "stderr" = some (.jstr (_truncate se)) := by
  simp only [sanitizeOut2]
  split_ifs <;> simp_all [dget_dset]

theorem sanitizeOut2_text (ts task : String) (d : JDict) (so se tx : String) (h : tx ≠ "") :
    dget (sanitizeOut2 ts task d so se tx) "text" = some (.jstr (_truncate tx)) := by
  simp only [sanitizeOut2]
  split_ifs <;> simp_all [dget_dset]

theorem c7_compute (ts task : String) (d : JDict) (so se tx : String)
    (hso : pyOr (dgetD d "stdout") (.jstr "") = .jstr so)
    (hse : pyOr (dgetD d "stderr") (.jstr "") = .jstr se)
    (htx : pyOr (dgetD d "text") (.jstr "") = .jstr tx)
    (hsave : task = "ssh: caddy_logs" ∨ pyLenStr so > MAX_KEEP ∨ pyLenStr se > MAX_KEEP ∨
      pyLenStr tx > MAX_KEEP) :
    sanitize_response ts task (.jdict d) =
      some (.jdict (sanitizeOut2 ts task d so se tx),
        some (artifactName ts task,
          String.intercalate "\n\n"
            ((if so = "" then [] else ["=== STDOUT ===\n" ++ so]) ++
             (if se = "" then [] else ["=== STDERR ===\n" ++ se]) ++
             (if tx ≠ "" ∧ tx ≠ so ∧ tx ≠ se then ["=== TEXT ===\n" ++ tx] else [])) ++ "\n")) := by
  unfold sanitize_response
  dsimp only
  rw [hso, hse, htx, needsSave_true task so se tx hsave, sanitizeParts_str]
  rfl

end AgentHub

namespace AgentHub

theorem sectionFor_nil (hdr : String) : sectionFor hdr [] = none := rfl

theorem sectionFor_cons_hit (hdr x : String) (rest : List String) :
    sectionFor hdr ((hdr ++ x) :: rest) = some x := by
  unfold sectionFor
  simp [List.find?, pyStartsWith_append_self]
  rw [show pyLenStr hdr = hdr.data.length from rfl, List.drop_left]
  rfl

theorem sectionFor_cons_miss (hdr h2 x : String) (rest : List String)
    (hmiss : pyStartsWith (h2 ++ x) hdr = false) :
    sectionFor hdr ((h2 ++ x) :: rest) = sectionFor hdr rest := by
  unfold sectionFor
  simp [List.find?, hmiss]

theorem c7_sections (so se tx : String) :
    sectionFor "=== STDOUT ===\n"
        ((if so = "" then [] else ["=== STDOUT ===\n" ++ so]) ++
         (if se = "" then [] else ["=== STDERR ===\n" ++ se]) ++
         (if tx ≠ "" ∧ tx ≠ so ∧ tx ≠ se then ["=== TEXT ===\n" ++ tx] else [])) =
      (if so = "" then none else some so) ∧
    sectionFor "=== STDERR ===\n"
        ((if so = "" then [] else ["=== STDOUT ===\n" ++ so]) ++
         (if se = "" then [] else ["=== STDERR ===\n" ++ se]) ++
         (if tx ≠ "" ∧ tx ≠ so ∧ tx ≠ se then ["=== TEXT ===\n" ++ tx] else [])) =
      (if se = "" then none else some se) ∧
    sectionFor "=== TEXT ===\n"
        ((if so = "" then [] else ["=== STDOUT ===\n" ++ so]) ++
         (if se = "" then [] else ["=== STDERR ===\n" ++ se]) ++
         (if tx ≠ "" ∧ tx ≠ so ∧ tx ≠ se then ["=== TEXT ===\n" ++ tx] else [])) =
      (if tx ≠ "" ∧ tx ≠ so ∧ tx ≠ se then some tx else none) := by
  have f1 : ∀ x, pyStartsWith ("=== STDERR ===\n" ++ x) "=== STDOUT ===\n" = false :=
    fun x => pyStartsWith_append_ne _ _ _ 15 (by decide) (by decide) (by decide)
  have f2 : ∀ x, pyStartsWith ("=== TEXT ===\n" ++ x) "=== STDOUT ===\n" = false :=
    fun x => pyStartsWith_append_ne _ _ _ 5 (by decide) (by decide) (by decide)
  have f3 : ∀ x, pyStartsWith ("=== STDOUT ===\n" ++ x) "=== STDERR ===\n" = false :=
    fun x => pyStartsWith_append_ne _ _ _ 15 (by decide) (by decide) (by decide)
  have f4 : ∀ x, pyStartsWith ("=== TEXT ===\n" ++ x) "=== STDERR ===\n" = false :=
    fun x => pyStartsWith_append_ne _ _ _ 5 (by decide) (by decide) (by decide)
  have f5 : ∀ x, pyStartsWith ("=== STDOUT ===\n" ++ x) "=== TEXT ===\n" = false :=
    fun x => pyStartsWith_append_ne _ _ _ 5 (by decide) (by decide) (by decide)
  have f6 : ∀ x, pyStartsWith ("=== STDERR ===\n" ++ x) "=== TEXT ===\n" = false :=
    fun x => pyStartsWith_append_ne _ _ _ 5 (by decide) (by decide) (by decide)
  refine ⟨?_, ?_, ?_⟩ <;>
    by_cases h1 : so = "" <;> by_cases h2 : se = "" <;>
      by_cases h3 : tx ≠ "" ∧ tx ≠ so ∧ tx ≠ se <;>
      simp [h1, h2, h3, sectionFor_nil, sectionFor_cons_hit, sectionFor_cons_miss,
        f1, f2, f3, f4, f5, f6] <;>
      split_ifs <;>
      simp_all [sectionFor_nil, sectionFor_cons_hit, sectionFor_cons_miss, f1, f2, f3, f4, f5, f6]

end AgentHub

namespace AgentHub

/-- C7: for a response whose task is the log-retrieval action or whose stdout, stderr or
text exceeds 800 characters, sanitize_response records the timestamped artifact path in the
result under _saved_to, returns the artifact file content as the section parts joined by
blank lines, replaces each non-empty in-report copy by its _truncate image (which, on a
string longer than 800 characters, is the first 800 characters plus the explicit
truncation marker), and the artifact sections give back the original stdout, stderr and
text exactly (text being recoverable from its own section or, when it duplicates stdout or
stderr, from theirs). -/
theorem c7_truncation_roundtrip (ts task : String) (d : JDict) (so se tx : String)
    (hso : pyOr (dgetD d "stdout") (.jstr "") = .jstr so)
    (hse : pyOr (dgetD d "stderr") (.jstr "") = .jstr se)
    (htx : pyOr (dgetD d "text") (.jstr "") = .jstr tx)
    (hsave : task = "ssh: caddy_logs" ∨ pyLenStr so > MAX_KEEP ∨ pyLenStr se > MAX_KEEP ∨
      pyLenStr tx > MAX_KEEP) :
    ∃ out parts,
      sanitize_response ts task (.jdict d) =
        some (.jdict out, some (artifactName ts task,
          String.intercalate "\n\n" parts ++ "\n")) ∧
      dget out "_saved_to" = some (.jstr (artifactName ts task)) ∧
      (so ≠ "" → dget out "stdout" = some (.jstr (_truncate so))) ∧
      (se ≠ "" → dget out "stderr" = some (.jstr (_truncate se))) ∧
      (tx ≠ "" → dget out "text" = some (.jstr (_truncate tx))) ∧
      (∀ s : String, pyLenStr s > MAX_KEEP →
        _truncate s = pySlice s MAX_KEEP ++ "\n...[truncated]...\n") ∧
      sectionFor "=== STDOUT ===\n" parts = (if so = "" then none else some so) ∧
      sectionFor "=== STDERR ===\n" parts = (if se = "" then none else some se) ∧
      (tx = "" ∨ sectionFor "=== TEXT ===\n" parts = some tx ∨
        (tx = so ∧ sectionFor "=== STDOUT ===\n" parts = some tx) ∨
        (tx = se ∧ sectionFor "=== STDERR ===\n" parts = some tx)) := by
  refine ⟨sanitizeOut2 ts task d so se tx,
    (if so = "" then [] else ["=== STDOUT ===\n" ++ so]) ++
    (if se = "" then [] else ["=== STDERR ===\n" ++ se]) ++
    (if tx ≠ "" ∧ tx ≠ so ∧ tx ≠ se then ["=== TEXT ===\n" ++ tx] else []),
    c7_compute ts task d so se tx hso hse htx hsave,
    sanitizeOut2_saved ts task d so se tx,
    fun h => sanitizeOut2_stdout ts task d so se tx h,
    fun h => sanitizeOut2_stderr ts task d so se tx h,
    fun h => sanitizeOut2_text ts task d so se tx h,
    fun s h => _truncate_long s h,
    ?_, ?_, ?_⟩
  · exact (c7_sections so se tx).1
  · exact (c7_sections so se tx).2.1
  · by_cases h0 : tx = ""
    · exact Or.inl h0
    · by_cases hA : tx = so
      · refine Or.inr (Or.inr (Or.inl ⟨hA, ?_⟩))
        rw [(c7_sections so se tx).1, if_neg (hA ▸ h0), hA]
      · by_cases hB : tx = se
        · refine Or.inr (Or.inr (Or.inr ⟨hB, ?_⟩))
          rw [(c7_sections so se tx).2.1, if_neg (hB ▸ h0), hB]
        · refine Or.inr (Or.inl ?_)
          rw [(c7_sections so se tx).2.2, if_pos ⟨h0, hA, hB⟩]

end AgentHub

namespace AgentHub

theorem c7_truncation_roundtrip_witness :
    ∃ out parts,
      sanitize_response "20240101-000000" "ssh: caddy_logs"
          (.jdict [("ok", .jbool true), ("stdout", .jstr "out line"), ("text", .jstr "hi")]) =
        some (.jdict out, some (artifactName "20240101-000000" "ssh: caddy_logs",
          String.intercalate "\n\n" parts ++ "\n")) ∧
      dget out "_saved_to" =
        some (.jstr (artifactName "20240101-000000" "ssh: caddy_logs")) ∧
      ("out line" ≠ "" → dget out "stdout" = some (.jstr (_truncate "out line"))) ∧
      ("" ≠ "" → dget out "stderr" = some (.jstr (_truncate ""))) ∧
      ("hi" ≠ "" → dget out "text" = some (.jstr (_truncate "hi"))) ∧
      (∀ s : String, pyLenStr s > MAX_KEEP →
        _truncate s = pySlice s MAX_KEEP ++ "\n...[truncated]...\n") ∧
      sectionFor "=== STDOUT ===\n" parts =
        (if "out line" = "" then none else some "out line") ∧
      sectionFor "=== STDERR ===\n" parts = (if "" = "" then none else some "") ∧
      ("hi" = "" ∨ sectionFor "=== TEXT ===\n" parts = some "hi" ∨
        ("hi" = "out line" ∧ sectionFor "=== STDOUT ===\n" parts = some "hi") ∨
        ("hi" = "" ∧ sectionFor "=== STDERR ===\n" parts = some "hi")) :=
  c7_truncation_roundtrip "20240101-000000" "ssh: caddy_logs"
    [("ok", .jbool true), ("stdout", .jstr "out line"), ("text", .jstr "hi")]
    "out line" "" "hi" (by decide) (by decide) (by decide) (Or.inl rfl)

end AgentHub

namespace AgentHub

theorem runTransport_issue (env : Env) (t : String) (p : JDict) :
    (runTransport env t p).2.1 = ((runTransport env t p).1).any initialBad := by
  simp only [runTransport]
  split
  · simp [initialBad]
  · split <;> simp [initialBad]

theorem gateAndRun_issue (env : Env) (t : String) (p : JDict) :
    (gateAndRun env t p).2.1 = ((gateAndRun env t p).1).any initialBad := by
  simp only [gateAndRun]
  split_ifs <;> first
    | exact runTransport_issue env t p
    | simp [initialBad]

theorem gateAndRun_issue2 (env : Env) (t : String) (p : JDict) (es : List REntry) (i : Bool)
    (cs : List CallRec) (h : gateAndRun env t p = (es, i, cs)) : i = es.any initialBad := by
  have hg := gateAndRun_issue env t p
  rw [h] at hg
  simpa using hg

theorem stepAction_issue (env : Env) (a : NAction) (es : List REntry) (i : Bool)
    (cs : List CallRec) (h : stepAction env a = .ok (es, i, cs)) :
    i = es.any initialBad := by
  simp only [stepAction] at h
  repeat' split at h
  all_goals
    first
    | (simp only [Except.ok.injEq, Prod.mk.injEq] at h
       obtain ⟨h1, h2, h3⟩ := h
       subst h1
       subst h2
       simp [initialBad, respOkTruthy, sshRunErrResp, dget, truthy])
    | (simp only [Except.ok.injEq] at h
       exact gateAndRun_issue2 env _ _ es i cs h)
    | simp at h

theorem runLoop_issue (env : Env) (l : List NAction) (rs : List REntry) (i : Bool)
    (cs : List CallRec) (h : runLoop env l = .ok (rs, i, cs)) :
    i = rs.any initialBad := by
  induction l generalizing rs i cs with
  | nil =>
    simp only [runLoop, Except.ok.injEq, Prod.mk.injEq] at h
    obtain ⟨h1, h2, h3⟩ := h
    subst h1
    subst h2
    simp
  | cons a rest ih =>
    simp only [runLoop] at h
    cases h1 : stepAction env a with
    | error e =>
      simp only [h1] at h
      exact absurd h (by simp)
    | ok t1 =>
      obtain ⟨e1, i1, c1⟩ := t1
      simp only [h1] at h
      cases h2 : runLoop env rest with
      | error e =>
        simp only [h2] at h
        exact absurd h (by simp)
      | ok t2 =>
        obtain ⟨e2, i2, c2⟩ := t2
        simp only [h2, Except.ok.injEq, Prod.mk.injEq] at h
        obtain ⟨h3, h4, h5⟩ := h
        subst h3
        subst h4
        rw [stepAction_issue env a e1 i1 c1 h1, ih e2 i2 c2 h2, List.any_append]

/-- C9: in conditional-logs mode (the user task carries an only-if-problem
marker) the `ssh: caddy_logs` action is dropped from the base list, the
loop-level `issue_found` flag is exactly "some entry of the initial pass
errored, was skipped, or answered with a falsy ok", and the EXEC section
appends the diagnostic `caddy_logs` fetch (one result entry, one transport
call) exactly once if and only if that flag is set. -/
theorem c9_conditional_logs (env : Env) (userTask : String) (actions : List NAction)
    (rs : List REntry) (issue : Bool) (cs : List CallRec)
    (hcond : wants_conditional_logs userTask = true)
    (hrun : runLoop env (actions.filter (fun a => a.task ≠ "ssh: caddy_logs")) =
      .ok (rs, issue, cs)) :
    (∀ a ∈ actions.filter (fun a => a.task ≠ "ssh: caddy_logs"), a.task ≠ "ssh: caddy_logs") ∧
    issue = rs.any initialBad ∧
    execSection env userTask actions =
      .ok (rs ++ (if rs.any initialBad then [(caddyFetch env).1] else []),
           cs ++ (if rs.any initialBad then [(caddyFetch env).2] else [])) := by
  have hi := runLoop_issue env _ rs issue cs hrun
  refine ⟨?_, hi, ?_⟩
  · intro a ha
    exact of_decide_eq_true (List.mem_filter.mp ha).2
  · simp only [execSection, hcond, if_true]
    rw [hrun]
    by_cases hb : rs.any initialBad = true <;> simp [hi, hb]

theorem c9_conditional_logs_witness :
    (∀ a ∈ (([⟨"ssh: compose_ps", "r", []⟩, ⟨"ssh: caddy_logs", "r", []⟩] : List NAction).filter
        (fun a => a.task ≠ "ssh: caddy_logs")), a.task ≠ "ssh: caddy_logs") ∧
    true = ([REntry.resp "ssh: compose_ps" none none
        (.jdict [("ok", .jbool false), ("action", .jstr "ssh: compose_ps"),
                 ("stdout", .jstr ""), ("stderr", .jstr ""), ("text", .jstr "False"),
                 ("exit_code", .jnull)])]).any initialBad ∧
    execSection ⟨[], false, fun _ _ => .jbool false, fun _ _ => .error "boom", "TS"⟩
        "show logs only if problem"
        [⟨"ssh: compose_ps", "r", []⟩, ⟨"ssh: caddy_logs", "r", []⟩] =
      .ok ([REntry.resp "ssh: compose_ps" none none
              (.jdict [("ok", .jbool false), ("action", .jstr "ssh: compose_ps"),
                       ("stdout", .jstr ""), ("stderr", .jstr ""), ("text", .jstr "False"),
                       ("exit_code", .jnull)])] ++
            (if ([REntry.resp "ssh: compose_ps" none none
                   (.jdict [("ok", .jbool false), ("action", .jstr "ssh: compose_ps"),
                            ("stdout", .jstr ""), ("stderr", .jstr ""), ("text", .jstr "False"),
                            ("exit_code", .jnull)])]).any initialBad then
              [(caddyFetch ⟨[], false, fun _ _ => .jbool false, fun _ _ => .error "boom", "TS"⟩).1]
             else []),
           [⟨"ssh: compose_ps", none⟩] ++
            (if ([REntry.resp "ssh: compose_ps" none none
                   (.jdict [("ok", .jbool false), ("action", .jstr "ssh: compose_ps"),
                            ("stdout", .jstr ""), ("stderr", .jstr ""), ("text", .jstr "False"),
                            ("exit_code", .jnull)])]).any initialBad then
              [(caddyFetch ⟨[], false, fun _ _ => .jbool false, fun _ _ => .error "boom", "TS"⟩).2]
             else [])) :=
  c9_conditional_logs ⟨[], false, fun _ _ => .jbool false, fun _ _ => .error "boom", "TS"⟩
    "show logs only if problem"
    [⟨"ssh: compose_ps", "r", []⟩, ⟨"ssh: caddy_logs", "r", []⟩]
    [REntry.resp "ssh: compose_ps" none none
      (.jdict [("ok", .jbool false), ("action", .jstr "ssh: compose_ps"),
               ("stdout", .jstr ""), ("stderr", .jstr ""), ("text", .jstr "False"),
               ("exit_code", .jnull)])]
    true [⟨"ssh: compose_ps", none⟩] (by decide) (by decide)

theorem c10_huse_aux (env : Env) (a : NAction) (args : JDict)
    (hroute : args ≠ [] ∨ pyTrim (pyStr (sshRunActionV a.params)) ∈ env.handv2Index.map Prod.fst) :
    ((!args.isEmpty) || ((!(env.handv2Index.map Prod.fst).isEmpty) &&
      decide (pyTrim (pyStr (sshRunActionV a.params)) ∈ env.handv2Index.map Prod.fst))) = true := by
  rcases hroute with h | h
  · simp [List.isEmpty_iff, h]
  · simp [List.isEmpty_iff, h, List.ne_nil_of_mem h]

theorem c10_skipped_free (env : Env) (a : NAction) (args : JDict)
    (htask : a.task = "ssh: run")
    (hargs : sshRunArgsV a.params = .jdict args)
    (hroute : args ≠ [] ∨ pyTrim (pyStr (sshRunActionV a.params)) ∈ env.handv2Index.map Prod.fst)
    (es : List REntry) (i : Bool) (cs : List CallRec)
    (h : stepAction env a = .ok (es, i, cs)) (t : String) : REntry.skipped t ∉ es := by
  have huse := c10_huse_aux env a args hroute
  simp only [stepAction, htask, hargs, huse, if_true] at h
  split at h
  · simp only [Except.ok.injEq, Prod.mk.injEq] at h
    obtain ⟨h1, h2, h3⟩ := h
    subst h1
    simp
  · split at h
    · simp only [Except.ok.injEq, Prod.mk.injEq] at h
      obtain ⟨h1, h2, h3⟩ := h
      subst h1
      simp
    · split at h
      · simp only [Except.ok.injEq, Prod.mk.injEq] at h
        obtain ⟨h1, h2, h3⟩ := h
        subst h1
        simp
      · exact absurd h (by simp)

theorem c10_dispatch (env : Env) (a : NAction) (args : JDict)
    (htask : a.task = "ssh: run")
    (hargs : sshRunArgsV a.params = .jdict args)
    (hroute : args ≠ [] ∨ pyTrim (pyStr (sshRunActionV a.params)) ∈ env.handv2Index.map Prod.fst)
    (htruthy : truthy (sshRunActionV a.params) = true)
    (hmode : sshRunMode a.params = "check" ∨ sshRunMode a.params = "plan" ∨
      sshRunMode a.params = "apply") :
    (∃ out i, stepAction env a =
      .ok ([REntry.resp "ssh: run"
              (some [("action", .jstr (hv2ActionOf a.params)),
                     ("mode", .jstr (sshRunMode a.params)),
                     ("args", .jdict (applyManifestDefaults env.handv2Index
                        (hv2ActionOf a.params) args))])
              none out], i,
           [⟨"ssh: run", some (hv2CallParams env a.params args)⟩])) ∨
    stepAction env a = .error "TypeError" := by
  have huse := c10_huse_aux env a args hroute
  simp only [stepAction, htask, hargs, huse, if_true, htruthy, hmode]
  rcases hs : sanitize_response env.ts "ssh: run" (normalize_exec_response "ssh: run"
      (env.callAgentExec "ssh: run" (some (hv2CallParams env a.params args)))) with _ | p
  · right
    simp only [hv2CallParams, List.cons_append, List.nil_append] at hs
    simp [hs]
  · left
    obtain ⟨out, art⟩ := p
    refine ⟨out, !respOkTruthy out, ?_⟩
    simp only [hv2CallParams, List.cons_append, List.nil_append] at hs
    simp [hs, hv2ActionOf, hv2CallParams]

/-- C10: an `ssh: run` action the loop routes through the Hand-v2 branch —
non-empty args, or its stripped action name listed in the manifest index —
never reaches the dangerous-task gate: no successful iteration outcome
contains a skipped record, the iteration is independent of the
ALLOW_DANGEROUS flag, and once the action value is truthy and the mode
valid the iteration either performs exactly one transport call, the
Hand-v2 `ssh: run` payload (whatever the mode or confirm token), or dies
with the Hand-v2 branch's uncaught TypeError. -/
theorem c10_hv2_bypasses_gate (env : Env) (b : Bool) (a : NAction) (args : JDict)
    (htask : a.task = "ssh: run")
    (hargs : sshRunArgsV a.params = .jdict args)
    (hroute : args ≠ [] ∨ pyTrim (pyStr (sshRunActionV a.params)) ∈ env.handv2Index.map Prod.fst) :
    (∀ es i cs, stepAction env a = .ok (es, i, cs) → ∀ t, REntry.skipped t ∉ es) ∧
    stepAction { env with allowDangerous := b } a = stepAction env a ∧
    (truthy (sshRunActionV a.params) = true →
      (sshRunMode a.params = "check" ∨ sshRunMode a.params = "plan" ∨
        sshRunMode a.params = "apply") →
      (∃ out i, stepAction env a =
        .ok ([REntry.resp "ssh: run"
                (some [("action", .jstr (hv2ActionOf a.params)),
                       ("mode", .jstr (sshRunMode a.params)),
                       ("args", .jdict (applyManifestDefaults env.handv2Index
                          (hv2ActionOf a.params) args))])
                none out], i,
             [⟨"ssh: run", some (hv2CallParams env a.params args)⟩])) ∨
      stepAction env a = .error "TypeError") := by
  refine ⟨fun es i cs h t => c10_skipped_free env a args htask hargs hroute es i cs h t, ?_,
    fun ht hm => c10_dispatch env a args htask hargs hroute ht hm⟩
  have huse := c10_huse_aux env a args hroute
  simp only [stepAction, htask, hargs, huse, if_true]

theorem c10_hv2_bypasses_gate_witness :
    (∀ es i cs,
      stepAction ⟨[("deploy", .jdict [])], false, fun _ _ => .jbool true,
          fun _ _ => .error "x", "TS"⟩
        ⟨"ssh: run", "r",
         [("action", .jstr "restart_n8n"), ("mode", .jstr "apply"),
          ("args", .jdict [("x", .jint 1)]), ("confirm", .jstr "yes")]⟩ = .ok (es, i, cs) →
      ∀ t, REntry.skipped t ∉ es) ∧
    stepAction ⟨[("deploy", .jdict [])], true, fun _ _ => .jbool true,
        fun _ _ => .error "x", "TS"⟩
      ⟨"ssh: run", "r",
       [("action", .jstr "restart_n8n"), ("mode", .jstr "apply"),
        ("args", .jdict [("x", .jint 1)]), ("confirm", .jstr "yes")]⟩ =
    stepAction ⟨[("deploy", .jdict [])], false, fun _ _ => .jbool true,
        fun _ _ => .error "x", "TS"⟩
      ⟨"ssh: run", "r",
       [("action", .jstr "restart_n8n"), ("mode", .jstr "apply"),
        ("args", .jdict [("x", .jint 1)]), ("confirm", .jstr "yes")]⟩ ∧
    (truthy (sshRunActionV
        [("action", .jstr "restart_n8n"), ("mode", .jstr "apply"),
         ("args", .jdict [("x", .jint 1)]), ("confirm", .jstr "yes")]) = true →
      (sshRunMode [("action", .jstr "restart_n8n"), ("mode", .jstr "apply"),
          ("args", .jdict [("x", .jint 1)]), ("confirm", .jstr "yes")] = "check" ∨
       sshRunMode [("action", .jstr "restart_n8n"), ("mode", .jstr "apply"),
          ("args", .jdict [("x", .jint 1)]), ("confirm", .jstr "yes")] = "plan" ∨
       sshRunMode [("action", .jstr "restart_n8n"), ("mode", .jstr "apply"),
          ("args", .jdict [("x", .jint 1)]), ("confirm", .jstr "yes")] = "apply") →
      (∃ out i,
        stepAction ⟨[("deploy", .jdict [])], false, fun _ _ => .jbool true,
            fun _ _ => .error "x", "TS"⟩
          ⟨"ssh: run", "r",
           [("action", .jstr "restart_n8n"), ("mode", .jstr "apply"),
            ("args", .jdict [("x", .jint 1)]), ("confirm", .jstr "yes")]⟩ =
          .ok ([REntry.resp "ssh: run"
                  (some [("action", .jstr (hv2ActionOf
                            [("action", .jstr "restart_n8n"), ("mode", .jstr "apply"),
                             ("args", .jdict [("x", .jint 1)]), ("confirm", .jstr "yes")])),
                         ("mode", .jstr (sshRunMode
                            [("action", .jstr "restart_n8n"), ("mode", .jstr "apply"),
                             ("args", .jdict [("x", .jint 1)]), ("confirm", .jstr "yes")])),
                         ("args", .jdict (applyManifestDefaults [("deploy", .jdict [])]
                            (hv2ActionOf
                              [("action", .jstr "restart_n8n"), ("mode", .jstr "apply"),
                               ("args", .jdict [("x", .jint 1)]), ("confirm", .jstr "yes")])
                            [("x", .jint 1)]))])
                  none out], i,
               [⟨"ssh: run", some (hv2CallParams
                  ⟨[("deploy", .jdict [])], false, fun _ _ => .jbool true,
                   fun _ _ => .error "x", "TS"⟩
                  [("action", .jstr "restart_n8n"), ("mode", .jstr "apply"),
                   ("args", .jdict [("x", .jint 1)]), ("confirm", .jstr "yes")]
                  [("x", .jint 1)])⟩])) ∨
      stepAction ⟨[("deploy", .jdict [])], false, fun _ _ => .jbool true,
          fun _ _ => .error "x", "TS"⟩
        ⟨"ssh: run", "r",
         [("action", .jstr "restart_n8n"), ("mode", .jstr "apply"),
          ("args", .jdict [("x", .jint 1)]), ("confirm", .jstr "yes")]⟩ = .error "TypeError") :=
  c10_hv2_bypasses_gate
    ⟨[("deploy", .jdict [])], false, fun _ _ => .jbool true, fun _ _ => .error "x", "TS"⟩
    true
    ⟨"ssh: run", "r",
     [("action", .jstr "restart_n8n"), ("mode", .jstr "apply"),
      ("args", .jdict [("x", .jint 1)]), ("confirm", .jstr "yes")]⟩
    [("x", .jint 1)] rfl (by decide) (Or.inl (by decide))

theorem runLoop_mem (env : Env) (l : List NAction) (a : NAction)
    (es1 : List REntry) (i1 : Bool) (cs1 : List CallRec)
    (hs : stepAction env a = .ok (es1, i1, cs1)) :
    ∀ rs i cs, a ∈ l → runLoop env l = .ok (rs, i, cs) → ∀ e ∈ es1, e ∈ rs := by
  induction l with
  | nil =>
    intro rs i cs ha
    cases ha
  | cons b rest ih =>
    intro rs i cs ha h
    simp only [runLoop] at h
    cases h1 : stepAction env b with
    | error e =>
      simp only [h1] at h
      exact absurd h (by simp)
    | ok t1 =>
      obtain ⟨e1, j1, c1⟩ := t1
      simp only [h1] at h
      cases h2 : runLoop env rest with
      | error e =>
        simp only [h2] at h
        exact absurd h (by simp)
      | ok t2 =>
        obtain ⟨e2, j2, c2⟩ := t2
        simp only [h2, Except.ok.injEq, Prod.mk.injEq] at h
        obtain ⟨h3, h4, h5⟩ := h
        subst h3
        rcases List.mem_cons.mp ha with hab | harest
        · subst hab
          rw [hs] at h1
          simp only [Except.ok.injEq, Prod.mk.injEq] at h1
          obtain ⟨h6, h7, h8⟩ := h1
          subst h6
          intro e he
          exact List.mem_append_left _ he
        · intro e he
          exact List.mem_append_right _ (ih e2 j2 c2 harest h2 e he)

/-- C1: a plan action whose task is in the dangerous set, with
ALLOW_DANGEROUS unset, is let through the gate only by the escape testing
for the generic `ssh: run` dispatch in mode `apply` with a non-empty
stripped confirm token — a test no member of the dangerous set satisfies:
the action's iteration records exactly one skipped entry and performs no
transport call, and whenever the action is in the executed list, the
session report carries the skipped record, its overall ok is false and its
exit code 1. -/
theorem c1_dangerous_skip (env : Env) (a : NAction) (userTask : String) (actions : List NAction)
    (hdang : a.task ∈ DANGEROUS_TASKS)
    (hflag : env.allowDangerous = false) :
    (∀ params, gateAndRun env a.task params =
      (if a.task = "ssh: run" ∧ sshRunMode params = "apply" ∧ gateConfirm params ≠ ""
       then runTransport env a.task params else ([.skipped a.task], true, []))) ∧
    stepAction env a = .ok ([.skipped a.task], true, []) ∧
    (∀ rs cs, a ∈ actions → execSection env userTask actions = .ok (rs, cs) →
      REntry.skipped a.task ∈ rs ∧ sessionOk rs = false ∧ sessionExitCode rs = 1) := by
  have htask : a.task = "ssh: restart_n8n" := by
    simpa [DANGEROUS_TASKS] using hdang
  have hne : a.task ≠ "ssh: run" := by
    rw [htask]
    decide
  have hgate : ∀ params, gateAndRun env a.task params =
      (if a.task = "ssh: run" ∧ sshRunMode params = "apply" ∧ gateConfirm params ≠ ""
       then runTransport env a.task params else ([.skipped a.task], true, [])) := by
    intro params
    simp only [gateAndRun]
    rw [if_pos ⟨hdang, by simp [hflag]⟩, if_neg hne, if_neg (fun hc => hne hc.1)]
  have hstep : stepAction env a = .ok ([.skipped a.task], true, []) := by
    simp only [stepAction]
    rw [if_neg hne, hgate a.params, if_neg (fun hc => hne hc.1)]
  refine ⟨hgate, hstep, ?_⟩
  intro rs cs hmem hex
  have hnc : a.task ≠ "ssh: caddy_logs" := by
    rw [htask]
    decide
  simp only [execSection] at hex
  cases hr : runLoop env (if wants_conditional_logs userTask = true
      then actions.filter (fun x => x.task ≠ "ssh: caddy_logs") else actions) with
  | error e =>
    rw [hr] at hex
    exact absurd hex (by simp)
  | ok t =>
    obtain ⟨rs0, i0, cs0⟩ := t
    rw [hr] at hex
    have hmem0 : a ∈ (if wants_conditional_logs userTask = true
        then actions.filter (fun x => x.task ≠ "ssh: caddy_logs") else actions) := by
      split
      · exact List.mem_filter.mpr ⟨hmem, by simp [hnc]⟩
      · exact hmem
    have hskip : REntry.skipped a.task ∈ rs0 :=
      runLoop_mem env _ a [.skipped a.task] true [] hstep rs0 i0 cs0 hmem0 hr
        (.skipped a.task) (by simp)
    have hout : REntry.skipped a.task ∈ rs := by
      dsimp only at hex
      split at hex
      · simp only [Except.ok.injEq, Prod.mk.injEq] at hex
        obtain ⟨h1, h2⟩ := hex
        subst h1
        exact List.mem_append_left _ hskip
      · simp only [Except.ok.injEq, Prod.mk.injEq] at hex
        obtain ⟨h1, h2⟩ := hex
        subst h1
        exact hskip
    have hbad : sessionOk rs = false := by
      simp only [sessionOk, Bool.not_eq_false']
      exact List.any_eq_true.mpr ⟨_, hout, rfl⟩
    exact ⟨hout, hbad, by simp [sessionExitCode, hbad]⟩

theorem c1_dangerous_skip_witness :
    (∀ params, gateAndRun ⟨[], false, fun _ _ => .jbool true, fun _ _ => .error "x", "TS"⟩
        "ssh: restart_n8n" params =
      (if ("ssh: restart_n8n" : String) = "ssh: run" ∧ sshRunMode params = "apply" ∧
          gateConfirm params ≠ ""
       then runTransport ⟨[], false, fun _ _ => .jbool true, fun _ _ => .error "x", "TS"⟩
         "ssh: restart_n8n" params
       else ([.skipped "ssh: restart_n8n"], true, []))) ∧
    stepAction ⟨[], false, fun _ _ => .jbool true, fun _ _ => .error "x", "TS"⟩
      ⟨"ssh: restart_n8n", "r", []⟩ = .ok ([.skipped "ssh: restart_n8n"], true, []) ∧
    (∀ rs cs, (⟨"ssh: restart_n8n", "r", []⟩ : NAction) ∈ [(⟨"ssh: restart_n8n", "r", []⟩ : NAction)] →
      execSection ⟨[], false, fun _ _ => .jbool true, fun _ _ => .error "x", "TS"⟩
        "restart" [⟨"ssh: restart_n8n", "r", []⟩] = .ok (rs, cs) →
      REntry.skipped "ssh: restart_n8n" ∈ rs ∧ sessionOk rs = false ∧ sessionExitCode rs = 1) :=
  c1_dangerous_skip ⟨[], false, fun _ _ => .jbool true, fun _ _ => .error "x", "TS"⟩
    ⟨"ssh: restart_n8n", "r", []⟩ "restart" [⟨"ssh: restart_n8n", "r", []⟩]
    (by decide) rfl

end AgentHub
